import Mathlib

/-!
Verification of the USDA ingredient-mapping pipeline.

Shallow embedding of the match-resolution pipeline: Python strings are
`List Char`; the relevance score (whose float operands are all integers, so
float arithmetic on them is exact) is `ℤ`; LLM-provided scores and nutrient
amounts are `ℚ`; dictionaries are association lists; and the two external
services (FDC API, LLM) are oracle functions supplied as parameters.  Each definition mirrors one function of
the source tree (`orchestrator_enhanced.py`, `tools/usda_api_tool.py`,
`tools/scoring_tool.py`, `tools/mapping_tool.py`, `utils/nutrient_mapper.py`,
`tools/nutritional_similarity_tool.py`).
-/

namespace USDA

/-- Python strings, embedded as lists of characters. -/
abbrev Str := List Char

/-- `needle.isPrefixOf hay` for character lists (Python `str.startswith`). -/
def strStartsWith : Str → Str → Bool
  | [], _ => true
  | _ :: _, [] => false
  | a :: as, b :: bs => a = b && strStartsWith as bs

/-- Python substring containment `needle in hay` (contiguous, empty needle matches). -/
def strContains : Str → Str → Bool
  | n, [] => n.isEmpty
  | n, h :: t => strStartsWith n (h :: t) || strContains n t

/-- Python `str.lower()`. -/
def pyLower (s : Str) : Str := s.map Char.toLower

/-- Python `str.strip()`: drop whitespace from both ends. -/
def pyStrip (s : Str) : Str :=
  ((s.dropWhile Char.isWhitespace).reverse.dropWhile Char.isWhitespace).reverse

/-- One step of the word splitter: starting a new word at whitespace. -/
def wordsAux (c : Char) (acc : List Str) : List Str :=
  if c.isWhitespace then [] :: acc
  else
    match acc with
    | [] => [[c]]
    | w :: ws => (c :: w) :: ws

/-- Python `str.split()` with no arguments: split on whitespace runs, no empty words. -/
def pyWords (s : Str) : List Str := (s.foldr wordsAux [[]]).filter (· ≠ [])

/--
Python single-character `str.replace(a, b)`; all replacements in the source
replace one character by one character, so this is a character map.
-/
def charReplace (a b : Char) (s : Str) : Str := s.map fun c => if c = a then b else c

/-- Python `str.endswith(c)` for a single character. -/
def endsWithChar (s : Str) (c : Char) : Bool := s.getLast? = some c

/-- Insert into a sorted list, keeping the new element before the first `le`-hit. -/
def insertSorted (le : α → α → Bool) (a : α) : List α → List α
  | [] => [a]
  | b :: bs => if le a b then a :: b :: bs else b :: insertSorted le a bs

/-- Stable sort by a boolean comparison, modelling Python `list.sort(key=...)`. -/
def sortBy (le : α → α → Bool) : List α → List α
  | [] => []
  | a :: as => insertSorted le a (sortBy le as)

/-! ## Relevance scorer (`tools/scoring_tool.py`, `_score_relevance_advanced`) -/

/-- A search-result row as consumed by the scorer and the multi-tier searcher. -/
structure Food where
  fdcId : Option Nat := none
  description : Str := []
  dataType : Str := []
  foodCategory : Str := []
  deriving DecidableEq, Repr

/-- `compound_indicators` from `_score_relevance_advanced`. -/
def compoundIndicators : List Str :=
  [("cheese").data, ("crackers").data, ("bread").data, ("cookies").data, ("cake").data,
   ("soup").data, ("sauce").data, ("dressing").data, ("cereal").data, ("bar").data,
   ("drink").data, ("juice").data, ("spread").data, ("butter").data, ("yogurt").data]

/-- `processed_forms` from `_score_relevance_advanced`. -/
def processedForms : List Str :=
  [("dry").data, ("powdered").data, ("powder").data, ("dehydrated").data, ("canned").data,
   ("frozen").data, ("concentrated").data, ("evaporated").data, ("condensed").data]

/--
The tail of `_score_relevance_advanced` after the lexical-bonus block:
word-level matching, compound/processed penalties, data-type priority and
food-category bias (source lines 170-243), applied to the running score.
-/
def scoreWordAndPenalties (food : Food) (queryLower : Str) (score0 : ℤ) : ℤ :=
  let description := pyLower food.description
  let queryWords := (pyWords queryLower).dedup
  let descWords := (pyWords (charReplace ',' ' ' description)).dedup
  let matchingWords := queryWords.filter (· ∈ descWords)
  let score := if matchingWords ≠ [] then
      (if matchingWords = queryWords then score0 + 150
       else score0 + (matchingWords.length : ℤ) * 30)
    else score0
  let queryWordCount := queryWords.length
  let descWordsList := pyWords (charReplace ',' ' ' description)
  let descWordCount := descWordsList.length
  let score := if queryWordCount ≤ 2 then
      let firstWord := descWordsList.headD []
      let score := if firstWord ∈ compoundIndicators then score - 800
        else if compoundIndicators.any (fun ind => strContains ind description) then score - 500
        else score
      let score := if ¬ processedForms.any (fun f => strContains f queryLower)
          ∧ processedForms.any (fun f => strContains f description) then score - 300
        else score
      if descWordCount > queryWordCount + 1 then score - 150 else score
    else score
  let score := if food.dataType = ("Foundation").data then score + 100
    else if food.dataType = ("SR Legacy").data then score + 50
    else if food.dataType = ("Survey (FNDDS)").data then score + 25
    else if food.dataType = ("Branded").data then score - 50
    else score
  let foodCategory := pyLower food.foodCategory
  let score := if strContains (("milk").data) queryLower ∧ strContains (("dairy").data) foodCategory
    then score + 50 else score
  if strContains (("fruit").data) queryLower ∧ strContains (("fruit").data) foodCategory
  then score + 50 else score

/--
`_score_relevance_advanced(food, query, position)`: base 1000, position
penalty, the two sequential lexical-bonus blocks of source lines 151-168,
then `scoreWordAndPenalties`.
-/
def scoreRelevanceAdvanced (food : Food) (query : Str) (position : Nat) : ℤ :=
  let description := pyLower food.description
  let queryLower := pyLower query
  let score : ℤ := 1000
  let score := score - (position : ℤ) * 10
  let score := if description = queryLower then score + 500
    else if strStartsWith queryLower description then score + 300
    else score
  let queryWordList := pyWords queryLower
  let mainIngredient := queryWordList.getLast?.getD []
  let score := if mainIngredient ≠ [] ∧ strStartsWith mainIngredient description then
      (let score := score + 250
       if strContains queryLower description then score + 100 else score)
    else if strContains queryLower description then score + 200
    else score
  scoreWordAndPenalties food queryLower score

/--
The scorer as claim C6 reads it: one five-way exclusive chain of lexical
bonuses (exact 500, starts-with 300, head-start 250 plus 100 when the query
occurs, substring 200), everything else as in the source.
-/
def scoreRelevanceClaimC6 (food : Food) (query : Str) (position : Nat) : ℤ :=
  let description := pyLower food.description
  let queryLower := pyLower query
  let score : ℤ := 1000
  let score := score - (position : ℤ) * 10
  let queryWordList := pyWords queryLower
  let mainIngredient := queryWordList.getLast?.getD []
  let score := if description = queryLower then score + 500
    else if strStartsWith queryLower description then score + 300
    else if mainIngredient ≠ [] ∧ strStartsWith mainIngredient description then
      score + 250 + (if strContains queryLower description then 100 else 0)
    else if strContains queryLower description then score + 200
    else score
  scoreWordAndPenalties food queryLower score

/--
The scorer with the amended reading of the lexical block: the exact/starts-with
chain and the head-start/substring chain are independent and their bonuses add.
-/
def scoreRelevanceAmendedC6 (food : Food) (query : Str) (position : Nat) : ℤ :=
  let description := pyLower food.description
  let queryLower := pyLower query
  let queryWordList := pyWords queryLower
  let mainIngredient := queryWordList.getLast?.getD []
  let exactChain : ℤ := if description = queryLower then 500
    else if strStartsWith queryLower description then 300
    else 0
  let headChain : ℤ := if mainIngredient ≠ [] ∧ strStartsWith mainIngredient description then
      250 + (if strContains queryLower description then 100 else 0)
    else if strContains queryLower description then 200
    else 0
  scoreWordAndPenalties food queryLower (1000 - (position : ℤ) * 10 + exactChain + headChain)

/-! ## Comprehensive 4-tier search
(`tools/usda_api_tool.py`, `search_usda_food_multi_tier_comprehensive`) -/

/-- A merged search candidate tagged with the tier that inserted it
(the `result["_search_tier"] = k` mutation). -/
structure TaggedFood where
  food : Food
  tier : Nat
  deriving DecidableEq, Repr

/-- Python truthiness of an optional FDC id (`if fdc_id:`): present and nonzero. -/
def truthyId : Option Nat → Bool
  | some n => n ≠ 0
  | none => false

/-- The id under which a merged candidate was deduplicated. -/
def fdcKey (t : TaggedFood) : Nat := t.food.fdcId.getD 0

/--
One tier's merge loop: append each result whose FDC id is truthy and unseen,
tagging it with `tier` and recording the id in the seen set.
-/
def addTier (tier : Nat) : List Food → List TaggedFood × List Nat → List TaggedFood × List Nat
  | [], st => st
  | r :: rest, st =>
    match r.fdcId with
    | some n =>
      if n ≠ 0 ∧ n ∉ st.2 then addTier tier rest (st.1 ++ [⟨r, tier⟩], st.2 ++ [n])
      else addTier tier rest st
    | none => addTier tier rest st

/-- Merge the four tier result lists in order 1 → 4. -/
def mergeTiers (t1 t2 t3 t4 : List Food) : List TaggedFood :=
  (addTier 4 t4 (addTier 3 t3 (addTier 2 t2 (addTier 1 t1 ([], []))))).1

/-- Lexicographic `(tier, fdcId-or-0)` comparison used when no ingredient is given. -/
def tierFdcLe (a b : TaggedFood) : Bool :=
  a.tier < b.tier || (a.tier = b.tier && a.food.fdcId.getD 0 ≤ b.food.fdcId.getD 0)

/--
`search_usda_food_multi_tier_comprehensive`: merge the four tier results,
then either score-and-sort (descending, when the original ingredient was
supplied) or sort by `(tier, fdcId)`, and return at most 80 candidates.
The four tier result lists stand for the client's four `search_food` calls.
-/
def searchComprehensive (t1 t2 t3 t4 : List Food) (ingredient : Option Str) :
    List TaggedFood :=
  let allResults := mergeTiers t1 t2 t3 t4
  match ingredient with
  | some ing =>
    let scored := allResults.enum.map fun p => (p.2, scoreRelevanceAdvanced p.2.food ing p.1)
    ((sortBy (fun a b => a.2 ≥ b.2) scored).take 80).map Prod.fst
  | none => (sortBy tierFdcLe allResults).take 80

/-- A tier list produces id `n` when it holds a truthy candidate carrying it. -/
def tierProduces (rs : List Food) (n : Nat) : Prop :=
  n ≠ 0 ∧ ∃ r ∈ rs, r.fdcId = some n

instance (rs : List Food) (n : Nat) : Decidable (tierProduces rs n) := by
  unfold tierProduces; infer_instance

/-- Index of the first tier (1-4) producing id `n`, if any. -/
def firstProducingTier (t1 t2 t3 t4 : List Food) (n : Nat) : Option Nat :=
  if tierProduces t1 n then some 1
  else if tierProduces t2 n then some 2
  else if tierProduces t3 n then some 3
  else if tierProduces t4 n then some 4
  else none

/-! ## Catalog client (`tools/usda_api_tool.py`, `USDAApiClient`) -/

/-- Outcome of one HTTP attempt: a parsed payload, or a caught transport failure
(`requests.exceptions.Timeout` / `requests.exceptions.RequestException`). -/
inductive Transport (α : Type) where
  | success (payload : α)
  | timeout
  | transportError
  deriving DecidableEq, Repr

/-- A transport attempt that did not yield a payload. -/
def Transport.isFail : Transport α → Bool
  | .success _ => false
  | .timeout => true
  | .transportError => true

/-- `self.rate_limit_delay` (500 ms) in seconds. -/
def rateLimitDelay : ℚ := 1 / 2

/--
The retry loop shared by `search_food` and `get_food_details`
(`for attempt in range(self.max_retries)` with the `try/except/finally`):
`responses i` is the transport outcome of the i-th attempt, `onFail` the
value returned when retries are exhausted, `ret` the success wrapper.
Returns the result together with the list of `time.sleep` durations
(exponential backoff `(2 ** attempt) * 2`, plus the `finally` rate-limit
delay on the last attempt).
-/
def clientLoop (responses : Nat → Transport α) (onFail : β) (ret : α → β) :
    Nat → Nat → β × List ℚ
  | _, 0 => (onFail, [])
  | i, remaining + 1 =>
    match responses i with
    | .success a => (ret a, if remaining = 0 then [rateLimitDelay] else [])
    | _ =>
      if remaining = 0 then (onFail, [rateLimitDelay])
      else
        let rest := clientLoop responses onFail ret (i + 1) remaining
        (rest.1, ((2 : ℚ) ^ i * 2) :: rest.2)

/-- `USDAApiClient.search_food`: 3 attempts, empty list on exhaustion. -/
def searchFood (responses : Nat → Transport (List Food)) : List Food × List ℚ :=
  clientLoop responses [] id 0 3

/-- `USDAApiClient.get_food_details` detail payload: the parsed JSON record. -/
structure FoodData where
  fdcId : Option Nat := none
  description : Str := []
  deriving DecidableEq, Repr

/-- `USDAApiClient.get_food_details`: 3 attempts, `None` on exhaustion. -/
def getFoodDetails (responses : Nat → Transport FoodData) : Option FoodData × List ℚ :=
  clientLoop responses none some 0 3

/-! ## Curated mapping store (`tools/mapping_tool.py`) -/

/-- `_fuzzy_match(ingredient, mappings)` over the mapping keys: exact
lowercased-stripped key, then the plural adjustments, then the
space/underscore/hyphen variations. -/
def fuzzyMatch (ingredient : Str) (keys : List Str) : Option Str :=
  let ingredientLower := pyStrip (pyLower ingredient)
  if ingredientLower ∈ keys then some ingredientLower
  else
    let plural : Option Str :=
      if endsWithChar ingredientLower 's' then
        (if ingredientLower.dropLast ∈ keys then some ingredientLower.dropLast else none)
      else if ingredientLower ++ ['s'] ∈ keys then
        some (ingredientLower ++ ['s'])
      else if ingredientLower ++ ("es").data ∈ keys then some (ingredientLower ++ ("es").data)
      else none
    match plural with
    | some k => some k
    | none =>
      let variations := [charReplace ' ' '_' ingredientLower, charReplace '_' ' ' ingredientLower,
        charReplace '-' ' ' ingredientLower, charReplace ' ' '-' ingredientLower]
      variations.find? (· ∈ keys)

/-- A curated mapping entry (`fdc_id` of the entry dictionary). -/
structure MappingEntry where
  fdcId : Nat
  deriving DecidableEq, Repr

/-- `search_mappings(ingredient, mappings)`: fuzzy-match the key, then index. -/
def searchMappings (ingredient : Str) (mappings : List (Str × MappingEntry)) :
    Option MappingEntry :=
  match fuzzyMatch ingredient (mappings.map Prod.fst) with
  | some k => (mappings.find? (fun p => p.1 = k)).map Prod.snd
  | none => none

/-! ## Nutrient normalizer (`utils/nutrient_mapper.py`) -/

/-- A stored nutrient value `{amount, unit}`. -/
structure NutrientData where
  amount : ℚ
  unit : Str
  deriving DecidableEq, Repr

/-- `USDA_NUTRIENT_MAPPINGS`: catalog nutrient names to canonical nutrient ids. -/
def usdaNutrientMappings : List (Str × Str) :=
  [(("Energy").data, ("nutrient-calories-energy").data),
   (("Energy (Atwater General Factors)").data, ("nutrient-calories-energy").data),
   (("Energy (Atwater Specific Factors)").data, ("nutrient-calories-energy").data),
   (("Protein").data, ("nutrient-protein").data),
   (("Total lipid (fat)").data, ("nutrient-total-fat").data),
   (("Carbohydrate, by difference").data, ("nutrient-total-carbohydrates").data),
   (("Fiber, total dietary").data, ("nutrient-dietary-fiber").data),
   (("Sugars, total including NLEA").data, ("nutrient-total-sugars").data),
   (("Sugars, added").data, ("nutrient-total-sugars").data),
   (("Water").data, ("nutrient-water").data),
   (("Fatty acids, total saturated").data, ("nutrient-saturated-fat").data),
   (("Fatty acids, total trans").data, ("nutrient-trans-fat").data),
   (("Fatty acids, total monounsaturated").data, ("nutrient-monounsaturated-fat").data),
   (("Fatty acids, total polyunsaturated").data, ("nutrient-polyunsaturated-fat").data),
   (("Cholesterol").data, ("nutrient-cholesterol").data),
   (("Alcohol, ethyl").data, ("nutrient-alcohol").data),
   (("Caffeine").data, ("nutrient-caffeine").data),
   (("Theobromine").data, ("nutrient-theobromine").data),
   (("Ash").data, ("nutrient-ash").data),
   (("Vitamin A, RAE").data, ("nutrient-vitamin-a-rae").data),
   (("Retinol").data, ("nutrient-retinol").data),
   (("Vitamin D (D2 + D3)").data, ("nutrient-vitamin-d").data),
   (("Vitamin E (alpha-tocopherol)").data, ("nutrient-vitamin-e-alpha-tocopherol").data),
   (("Vitamin K (phylloquinone)").data, ("nutrient-vitamin-k-phylloquinone").data),
   (("Thiamin").data, ("nutrient-thiamin-b1").data),
   (("Riboflavin").data, ("nutrient-riboflavin-b2").data),
   (("Niacin").data, ("nutrient-niacin-b3").data),
   (("Pantothenic acid").data, ("nutrient-vitamin-b5-pantothenic-acid").data),
   (("Vitamin B-6").data, ("nutrient-vitamin-b6").data),
   (("Folate, total").data, ("nutrient-folate-folic-acid").data),
   (("Folic acid").data, ("nutrient-folate-folic-acid").data),
   (("Vitamin B-12").data, ("nutrient-vitamin-b12").data),
   (("Choline, total").data, ("nutrient-choline").data),
   (("Vitamin C, total ascorbic acid").data, ("nutrient-vitamin-c-ascorbic-acid").data),
   (("Calcium, Ca").data, ("nutrient-calcium").data),
   (("Magnesium, Mg").data, ("nutrient-magnesium").data),
   (("Phosphorus, P").data, ("nutrient-phosphorus").data),
   (("Potassium, K").data, ("nutrient-potassium").data),
   (("Sodium, Na").data, ("nutrient-sodium").data),
   (("Iron, Fe").data, ("nutrient-iron").data),
   (("Zinc, Zn").data, ("nutrient-zinc").data),
   (("Copper, Cu").data, ("nutrient-copper").data),
   (("Selenium, Se").data, ("nutrient-selenium").data),
   (("Manganese, Mn").data, ("nutrient-manganese").data),
   (("Fluoride, F").data, ("nutrient-fluoride").data),
   (("Beta-carotene").data, ("nutrient-beta-carotene").data),
   (("Alpha-carotene").data, ("nutrient-alpha-carotene").data),
   (("Cryptoxanthin, beta").data, ("nutrient-cryptoxanthin").data),
   (("Lycopene").data, ("nutrient-lycopene").data),
   (("Lutein + zeaxanthin").data, ("nutrient-lutein-zeaxanthin").data),
   (("4:0").data, ("nutrient-sfa-4-0-butyric").data),
   (("6:0").data, ("nutrient-sfa-6-0-caproic").data),
   (("8:0").data, ("nutrient-sfa-8-0-caprylic").data),
   (("10:0").data, ("nutrient-sfa-10-0-capric").data),
   (("12:0").data, ("nutrient-sfa-12-0-lauric").data),
   (("14:0").data, ("nutrient-sfa-14-0-myristic").data),
   (("16:0").data, ("nutrient-sfa-16-0-palmitic").data),
   (("18:0").data, ("nutrient-sfa-18-0-stearic").data),
   (("16:1").data, ("nutrient-mufa-16-1-palmitoleic").data),
   (("18:1").data, ("nutrient-mufa-18-1-oleic").data),
   (("20:1").data, ("nutrient-mufa-20-1").data),
   (("22:1").data, ("nutrient-mufa-22-1").data),
   (("18:2 n-6 c,c").data, ("nutrient-pufa-18-2-linoleic").data),
   (("18:3 n-3 c,c,c (ALA)").data, ("nutrient-pufa-18-3-alpha-linolenic").data),
   (("18:4").data, ("nutrient-pufa-18-4").data),
   (("20:4 n-6").data, ("nutrient-pufa-20-4-arachidonic").data),
   (("20:5 n-3 (EPA)").data, ("nutrient-pufa-20-5-epa").data),
   (("22:5 n-3 (DPA)").data, ("nutrient-pufa-22-5-dpa").data),
   (("22:6 n-3 (DHA)").data, ("nutrient-pufa-22-6-dha").data),
   (("Tryptophan").data, ("nutrient-tryptophan").data),
   (("Threonine").data, ("nutrient-threonine").data),
   (("Isoleucine").data, ("nutrient-isoleucine").data),
   (("Leucine").data, ("nutrient-leucine").data),
   (("Lysine").data, ("nutrient-lysine").data),
   (("Methionine").data, ("nutrient-methionine").data),
   (("Phenylalanine").data, ("nutrient-phenylalanine").data),
   (("Valine").data, ("nutrient-valine").data),
   (("Arginine").data, ("nutrient-arginine").data),
   (("Histidine").data, ("nutrient-histidine").data),
   (("Cystine").data, ("nutrient-cystine").data),
   (("Tyrosine").data, ("nutrient-tyrosine").data),
   (("Alanine").data, ("nutrient-alanine").data),
   (("Aspartic acid").data, ("nutrient-aspartic-acid").data),
   (("Glutamic acid").data, ("nutrient-glutamic-acid").data),
   (("Glycine").data, ("nutrient-glycine").data),
   (("Proline").data, ("nutrient-proline").data),
   (("Serine").data, ("nutrient-serine").data)]

/--
`map_usda_nutrient_to_standard(usda_nutrient_name)`: direct table hit, then
case-insensitive table hit, then the partial-match fallback chain.
-/
def mapUsdaNutrientToStandard (name : Str) : Option Str :=
  match usdaNutrientMappings.find? (fun p => p.1 = name) with
  | some p => some p.2
  | none =>
    let usdaLower := pyLower name
    match usdaNutrientMappings.find? (fun p => pyLower p.1 = usdaLower) with
    | some p => some p.2
    | none =>
      if strContains (("energy").data) usdaLower ∨ strContains (("calorie").data) usdaLower then
        some (("nutrient-calories-energy").data)
      else if strContains (("protein").data) usdaLower then some (("nutrient-protein").data)
      else if strContains (("fat").data) usdaLower ∧ strContains (("total").data) usdaLower then
        some (("nutrient-total-fat").data)
      else if strContains (("carbohydrate").data) usdaLower then
        some (("nutrient-total-carbohydrates").data)
      else if strContains (("fiber").data) usdaLower ∨ strContains (("fibre").data) usdaLower then
        some (("nutrient-dietary-fiber").data)
      else if strContains (("sugar").data) usdaLower then some (("nutrient-total-sugars").data)
      else if strContains (("sodium").data) usdaLower then some (("nutrient-sodium").data)
      else if strContains (("calcium").data) usdaLower then some (("nutrient-calcium").data)
      else if strContains (("iron").data) usdaLower then some (("nutrient-iron").data)
      else if strContains (("vitamin c").data) usdaLower
          ∨ strContains (("ascorbic").data) usdaLower then
        some (("nutrient-vitamin-c-ascorbic-acid").data)
      else none

/-- Assignment to an existing key of a Python dict modelled as an
association list: replace the (unique) binding, keep the key order. -/
def setKey (k : Str) (v : Option NutrientData) :
    List (Str × Option NutrientData) → List (Str × Option NutrientData)
  | [] => []
  | (k0, v0) :: rest => if k0 = k then (k0, v) :: rest else (k0, v0) :: setKey k v rest

/-- Association-list lookup by key (Python dict read and `in` test). -/
def lookupKey (k : Str) : List (Str × Option NutrientData) → Option (Option NutrientData)
  | [] => none
  | (k0, v0) :: rest => if k0 = k then some v0 else lookupKey k rest

/-- The loop body of `extract_all_nutrients`: `if nutrient_id and nutrient_id
in result: result[nutrient_id] = nutrient_data`. -/
def extractStep (result : List (Str × Option NutrientData)) (p : Str × NutrientData) :
    List (Str × Option NutrientData) :=
  match mapUsdaNutrientToStandard p.1 with
  | some nid => if (lookupKey nid result).isSome then setKey nid (some p.2) result else result
  | none => result

/--
`extract_all_nutrients(usda_nutrients, ...)` with the canonical id list
`all_nutrient_ids` (from the definitions table): initialise every canonical
id to `None`, then fill the slots of mappable catalog names.
-/
def extractAllNutrients (usdaNutrients : List (Str × NutrientData)) (allNutrientIds : List Str) :
    List (Str × Option NutrientData) :=
  usdaNutrients.foldl extractStep (allNutrientIds.map fun nid => (nid, none))

/-! ## Basic-nutrient vector
(`tools/nutritional_similarity_tool.py`, `_extract_basic_nutrients`) -/

/-- Lookup in the basic-nutrient dictionary of rationals. -/
def lookupQ (k : Str) : List (Str × ℚ) → Option ℚ
  | [] => none
  | (k0, v0) :: rest => if k0 = k then some v0 else lookupQ k rest

/-- Conditionally add one slot (`if data and data.get("amount"): nutrients[k] = v`). -/
def appendSlot (acc : List (Str × ℚ)) (k : Str) (v : Option ℚ) : List (Str × ℚ) :=
  match v with
  | some q => acc ++ [(k, q)]
  | none => acc

/-- The generic slot rule of `_extract_basic_nutrients`: the standardized
value's amount, when the slot is present and its amount truthy. -/
def basicSlot (standardized : List (Str × Option NutrientData)) (nid : Str) : Option ℚ :=
  match Option.join (lookupKey nid standardized) with
  | some nd => if nd.amount ≠ 0 then some nd.amount else none
  | none => none

/-- The calories slot rule: converted from kJ by `amount / 4.184` when the
stored unit contains `"kj"`, otherwise the amount unchanged. -/
def caloriesValue (standardized : List (Str × Option NutrientData)) : Option ℚ :=
  match Option.join (lookupKey (("nutrient-calories-energy").data) standardized) with
  | some nd =>
    if nd.amount ≠ 0 then
      (if strContains (("kj").data) (pyLower nd.unit) then some (nd.amount / (4.184 : ℚ))
       else some nd.amount)
    else none
  | none => none

/-- The slot schedule of `_extract_basic_nutrients`, in source order. -/
def basicSlotSpecs (standardized : List (Str × Option NutrientData)) : List (Str × Option ℚ) :=
  [((("calories").data), caloriesValue standardized),
   ((("protein_g").data), basicSlot standardized (("nutrient-protein").data)),
   ((("total_fat_g").data), basicSlot standardized (("nutrient-total-fat").data)),
   ((("saturated_fat_g").data), basicSlot standardized (("nutrient-saturated-fat").data)),
   ((("trans_fat_g").data), basicSlot standardized (("nutrient-trans-fat").data)),
   ((("polyunsaturated_fat_g").data), basicSlot standardized (("nutrient-polyunsaturated-fat").data)),
   ((("monounsaturated_fat_g").data), basicSlot standardized (("nutrient-monounsaturated-fat").data)),
   ((("cholesterol_mg").data), basicSlot standardized (("nutrient-cholesterol").data)),
   ((("sodium_mg").data), basicSlot standardized (("nutrient-sodium").data)),
   ((("total_carbs_g").data), basicSlot standardized (("nutrient-total-carbohydrates").data)),
   ((("dietary_fiber_g").data), basicSlot standardized (("nutrient-dietary-fiber").data)),
   ((("total_sugars_g").data), basicSlot standardized (("nutrient-total-sugars").data)),
   ((("vitamin_a_mcg").data), basicSlot standardized (("nutrient-vitamin-a-rae").data)),
   ((("vitamin_c_mg").data), basicSlot standardized (("nutrient-vitamin-c-ascorbic-acid").data)),
   ((("vitamin_d_mcg").data), basicSlot standardized (("nutrient-vitamin-d").data)),
   ((("calcium_mg").data), basicSlot standardized (("nutrient-calcium").data)),
   ((("iron_mg").data), basicSlot standardized (("nutrient-iron").data)),
   ((("potassium_mg").data), basicSlot standardized (("nutrient-potassium").data))]

/--
`_extract_basic_nutrients(nutrition_data)` over the standardized nutrient
map: fill the slot schedule, then derive `calories_from_fat` as
`total_fat_g * 9` when total fat is present and truthy.
-/
def extractBasicNutrients (standardized : List (Str × Option NutrientData)) : List (Str × ℚ) :=
  let nutrients := (basicSlotSpecs standardized).foldl (fun acc p => appendSlot acc p.1 p.2) []
  match lookupQ (("total_fat_g").data) nutrients with
  | some v =>
    if v ≠ 0 then nutrients ++ [((("calories_from_fat").data), v * 9)] else nutrients
  | none => nutrients

/-! ## Orchestrator (`orchestrator_enhanced.py`, `EnhancedNutritionFetchOrchestrator`) -/

def FLAG_HIGH : Str := ("HIGH_CONFIDENCE").data

def FLAG_MID : Str := ("MID_CONFIDENCE").data

def FLAG_LOW : Str := ("LOW_CONFIDENCE").data

def FLAG_NO_MAPPING : Str := ("NO_MAPPING_FOUND").data

def SRC_CURATED : Str := ("curated_mapping").data

def SRC_SEARCH : Str := ("search").data

def ST_CURATED : Str := ("curated_mapping").data

def ST_NO_SEARCH_RESULTS : Str := ("no_search_results").data

def ST_SEMANTIC_MISMATCH : Str := ("semantic_mismatch").data

def ST_SEM_TOO_LOW : Str := ("semantic_score_too_low").data

def ST_SEMANTIC_HIGH : Str := ("search_verified_semantic_high").data

def ST_NUTRITIONAL_MISMATCH : Str := ("nutritional_mismatch").data

def ST_SEARCH_VERIFIED_HIGH : Str := ("search_verified_high").data

def ST_SEARCH_VERIFIED_MID : Str := ("search_verified_mid").data

def ST_SEARCH_VERIFIED_MID_SEM_LOW : Str := ("search_verified_mid_semantic_low").data

def ST_SEARCH_LOW_CONFIDENCE : Str := ("search_low_confidence").data

def ST_EXTRACTION_FAILED : Str := ("nutrition_extraction_failed").data

def ST_FOOD_DATA_NOT_FOUND : Str := ("food_data_not_found").data

def ST_FDC_ID_NOT_FOUND : Str := ("fdc_id_not_found").data

def ST_ALL_RETRIES_EXHAUSTED : Str := ("all_retries_exhausted").data

/-- A semantically verified candidate (one row of `verify_semantic_match` output,
carrying its `fdcId`/`fdc_id` and `semantic_match_score`). -/
structure Verified where
  fdcId : Option Nat := none
  semScore : ℚ := 0
  deriving DecidableEq, Repr

/-- One row of `calculate_nutritional_similarity_score` output
(`fdc_id` and `nutritional_similarity_score`). -/
structure SimResult where
  fdcId : Option Nat := none
  nutScore : ℚ := 0
  deriving DecidableEq, Repr

/-- The claim-relevant payload of a truthy `extract_nutrition_data` result. -/
structure ExtractedData where
  standardizedNutrients : List (Str × Option NutrientData) := []
  deriving DecidableEq, Repr

/--
Oracles for the collaborators of one `fetch_nutrition_for_ingredient` run:
the curated lookup, and the per-attempt outputs of the comprehensive search,
the semantic verifier and the nutritional gate, plus the detail fetch and
the extraction step (`None` standing for a falsy result).
-/
structure Env where
  mapping : Option Nat
  searchResults : Nat → List TaggedFood
  verified : Nat → List Verified
  simResults : Nat → List SimResult
  details : Nat → Option FoodData
  extract : FoodData → Option ExtractedData

/-- The claim-relevant projection of a Result Record. -/
structure ResultRecord where
  source : Option Str
  flag : Str
  mappingStatus : Str
  semScore : Option ℚ
  nutScore : Option ℚ
  retryAttempts : Nat
  standardizedNutrients : List (Str × Option NutrientData)
  deriving DecidableEq, Repr

/-- The `result_metadata` score fields that persist across attempts. -/
structure MetaState where
  sem : Option ℚ := none
  nut : Option ℚ := none
  deriving DecidableEq, Repr

/-- One invocation of the nutritional gate, with the active acceptance threshold. -/
structure GateCall where
  attempt : Nat
  threshold : ℚ
  deriving DecidableEq, Repr

/-- Outcome of one attempt iteration: return a record, or continue the loop. -/
inductive StepOut where
  | emit (r : ResultRecord)
  | retry
  deriving DecidableEq, Repr

/-- `_create_failed_result(metadata)`: `source`/`fdc_id` null, empty
`standardized_nutrients`, scores from the metadata. -/
def createFailedResult (flag status : Str) (meta : MetaState) (attempts : Nat) : ResultRecord :=
  { source := none
    flag := flag
    mappingStatus := status
    semScore := meta.sem
    nutScore := meta.nut
    retryAttempts := attempts
    standardizedNutrients := [] }

/-- A successfully mapped record: extracted nutrition data plus the metadata
fields the orchestrator writes into it. -/
def successRecord (source flag status : Str) (sem nut : Option ℚ) (attempts : Nat)
    (ed : ExtractedData) : ResultRecord :=
  { source := some source
    flag := flag
    mappingStatus := status
    semScore := sem
    nutScore := nut
    retryAttempts := attempts
    standardizedNutrients := ed.standardizedNutrients }

/--
The nutritional branch of one attempt (orchestrator source lines 363-493):
run the gate, compare the best nutritional score with the threshold, choose
flag and status, fetch details and extract.  Returns the step outcome and
the updated metadata; the corresponding gate call is recorded by the caller.
-/
def gateStep (env : Env) (a : Nat) (isLast : Bool) (s : ℚ) (threshold : ℚ) (meta : MetaState) :
    StepOut × MetaState :=
  match env.simResults a with
  | [] =>
    if isLast then
      (.emit (createFailedResult FLAG_NO_MAPPING ST_NUTRITIONAL_MISMATCH
          { meta with sem := some s } a),
        { meta with sem := some s })
    else (.retry, meta)
  | bm :: _ =>
    let ns := bm.nutScore
    if ns ≥ threshold then
      let fs : Str × Str :=
        if ns ≥ 90 then
          (if s ≥ 80 then (FLAG_HIGH, ST_SEARCH_VERIFIED_HIGH)
           else (FLAG_MID, ST_SEARCH_VERIFIED_MID_SEM_LOW))
        else if ns ≥ 80 then (FLAG_MID, ST_SEARCH_VERIFIED_MID)
        else (FLAG_LOW, ST_SEARCH_LOW_CONFIDENCE)
      match bm.fdcId.bind env.details with
      | some fd =>
        match env.extract fd with
        | some ed =>
          (.emit (successRecord SRC_SEARCH fs.1 fs.2 (some s) (some ns) a ed), meta)
        | none =>
          if isLast then
            (.emit (createFailedResult FLAG_NO_MAPPING ST_EXTRACTION_FAILED
                ⟨some s, some ns⟩ a), ⟨some s, some ns⟩)
          else (.retry, ⟨some s, some ns⟩)
      | none =>
        if isLast then
          (.emit (createFailedResult FLAG_NO_MAPPING ST_FOOD_DATA_NOT_FOUND
              ⟨some s, some ns⟩ a), ⟨some s, some ns⟩)
        else (.retry, ⟨some s, some ns⟩)
    else (.retry, meta)

/--
The direct-mapping branch for semantic score ≥ 90 (source lines 495-591):
no gate; pick an FDC id from the verified list, fetch details with fallback
to the other verified candidates, extract, emit `HIGH_CONFIDENCE`.
-/
def directStep (env : Env) (a : Nat) (isLast : Bool) (best : Verified) (rest : List Verified)
    (meta : MetaState) : StepOut × MetaState :=
  let s := best.semScore
  let fdc0 : Option Nat :=
    if truthyId best.fdcId then best.fdcId
    else rest.findSome? fun alt => if truthyId alt.fdcId then alt.fdcId else none
  match fdc0 with
  | none =>
    if isLast then
      (.emit (createFailedResult FLAG_NO_MAPPING ST_FDC_ID_NOT_FOUND
          { meta with sem := some s } a), { meta with sem := some s })
    else (.retry, meta)
  | some fdc =>
    let foodData : Option FoodData :=
      match env.details fdc with
      | some fd => some fd
      | none =>
        rest.findSome? fun alt =>
          match alt.fdcId with
          | some m => if m ≠ 0 ∧ m ≠ fdc then env.details m else none
          | none => none
    match foodData with
    | none =>
      if isLast then
        (.emit (createFailedResult FLAG_NO_MAPPING ST_FOOD_DATA_NOT_FOUND
            { meta with sem := some s } a), { meta with sem := some s })
      else (.retry, meta)
    | some fd =>
      match env.extract fd with
      | some ed =>
        (.emit (successRecord SRC_SEARCH FLAG_HIGH ST_SEMANTIC_HIGH (some s) none a ed),
          meta)
      | none => (.retry, meta)

/--
One iteration of the retry loop (source lines 173-591): search, semantic
verification, then the switch on the best semantic score — ≥ 90 direct
mapping, 80-89 gate with threshold 80, 65-79 gate with threshold 90,
< 65 no gate and retry or `semantic_score_too_low`.
-/
def attemptStep (env : Env) (a : Nat) (isLast : Bool) (meta : MetaState) :
    (StepOut × MetaState) × List GateCall :=
  match env.searchResults a with
  | [] =>
    if isLast then
      ((.emit (createFailedResult FLAG_NO_MAPPING ST_NO_SEARCH_RESULTS meta a), meta), [])
    else ((.retry, meta), [])
  | _ :: _ =>
    match env.verified a with
    | [] =>
      if isLast then
        ((.emit (createFailedResult FLAG_NO_MAPPING ST_SEMANTIC_MISMATCH meta a), meta), [])
      else ((.retry, meta), [])
    | best :: rest =>
      let s := best.semScore
      if s ≥ 90 then (directStep env a isLast best rest meta, [])
      else if s ≥ 80 then (gateStep env a isLast s 80 meta, [⟨a, 80⟩])
      else if s ≥ 65 then (gateStep env a isLast s 90 meta, [⟨a, 90⟩])
      else
        let meta2 := { meta with sem := some s }
        if isLast then
          ((.emit (createFailedResult FLAG_NO_MAPPING ST_SEM_TOO_LOW meta2 a), meta2), [])
        else ((.retry, meta2), [])

/-- `max_retries = 2`. -/
def maxRetries : Nat := 2

/-- The search path: attempt 1, attempt 2, then `all_retries_exhausted`.
Returns the record together with all recorded gate calls. -/
def fetchSearch (env : Env) : ResultRecord × List GateCall :=
  match attemptStep env 1 false {} with
  | ((.emit r, _), g1) => (r, g1)
  | ((.retry, m1), g1) =>
    match attemptStep env 2 true m1 with
    | ((.emit r, _), g2) => (r, g1 ++ g2)
    | ((.retry, m2), g2) =>
      (createFailedResult FLAG_NO_MAPPING ST_ALL_RETRIES_EXHAUSTED m2 maxRetries, g1 ++ g2)

/--
`fetch_nutrition_for_ingredient`: curated fast path (falling through to the
search path when the detail fetch or the extraction is falsy), else the
search path with the retry loop.
-/
def fetchNutritionForIngredient (env : Env) : ResultRecord × List GateCall :=
  match env.mapping with
  | some fdc =>
    match env.details fdc with
    | some fd =>
      match env.extract fd with
      | some ed =>
        (successRecord SRC_CURATED FLAG_HIGH ST_CURATED (some 100) (some 100) 0 ed, [])
      | none => fetchSearch env
    | none => fetchSearch env
  | none => fetchSearch env

/-- Outcome of `fetch_nutrition_for_ingredient` as seen by the caller's
`try/except`: a record, a falsy value, or a raised exception. -/
inductive FetchOutcome where
  | ok (r : ResultRecord)
  | noneResult
  | raised
  deriving DecidableEq, Repr

/-- The loop state of `process_ingredients`. -/
structure ProcessState where
  results : List ResultRecord := []
  failed : List Str := []
  successful : Nat := 0
  failedCount : Nat := 0
  deriving Repr

/-- The body of the `process_ingredients` loop (source lines 671-699):
records are appended for every truthy result, `HIGH`/`MID` count as
successful, others also land on the failed list; falsy results and caught
exceptions only land on the failed list. -/
def processStep (fetch : Str → FetchOutcome) (st : ProcessState) (ingredient : Str) :
    ProcessState :=
  match fetch ingredient with
  | .ok r =>
    if r.flag = FLAG_HIGH ∨ r.flag = FLAG_MID then
      { st with results := st.results ++ [r], successful := st.successful + 1 }
    else if r.flag = FLAG_LOW then
      { st with
        results := st.results ++ [r]
        failed := st.failed ++ [ingredient]
        failedCount := st.failedCount + 1 }
    else
      { st with
        results := st.results ++ [r]
        failed := st.failed ++ [ingredient]
        failedCount := st.failedCount + 1 }
  | .noneResult =>
    { st with failed := st.failed ++ [ingredient], failedCount := st.failedCount + 1 }
  | .raised =>
    { st with failed := st.failed ++ [ingredient], failedCount := st.failedCount + 1 }

/-- `process_ingredients(ingredients, ...)` per-ingredient loop. -/
def processIngredients (ingredients : List Str) (fetch : Str → FetchOutcome) : ProcessState :=
  ingredients.foldl (processStep fetch) {}

/-- Whether the loop body of `process_ingredients` puts the ingredient on the
failed list. -/
def landsOnFailed (fetch : Str → FetchOutcome) (i : Str) : Bool :=
  match fetch i with
  | .ok r => if r.flag = FLAG_HIGH ∨ r.flag = FLAG_MID then false else true
  | .noneResult => true
  | .raised => true

/-- The record a non-raising fetch outcome contributes to the results list. -/
def recordOf : FetchOutcome → Option ResultRecord
  | .ok r => some r
  | .noneResult => none
  | .raised => none

/-! ## Concrete fixtures used by witnesses and counterexamples -/

/-- Environment in which every search attempt returns no results. -/
def envNoResults : Env :=
  { mapping := none
    searchResults := fun _ => []
    verified := fun _ => []
    simResults := fun _ => []
    details := fun _ => none
    extract := fun _ => none }

/-- Environment whose best verified candidate scores 92 (≥ 90 band). -/
def envSem92 : Env :=
  { mapping := none
    searchResults := fun _ => [⟨{ fdcId := some 5 }, 1⟩]
    verified := fun _ => [{ fdcId := some 5, semScore := 92 }]
    simResults := fun _ => []
    details := fun _ => none
    extract := fun _ => none }

/-- Environment whose best verified candidate scores 85 (80-89 band). -/
def envSem85 : Env :=
  { mapping := none
    searchResults := fun _ => [⟨{ fdcId := some 5 }, 1⟩]
    verified := fun _ => [{ fdcId := some 5, semScore := 85 }]
    simResults := fun _ => []
    details := fun _ => none
    extract := fun _ => none }

/-- Environment with a curated hit whose detail fetch and extraction succeed. -/
def envCurated : Env :=
  { mapping := some 7
    searchResults := fun _ => []
    verified := fun _ => []
    simResults := fun _ => []
    details := fun n => if n = 7 then some { fdcId := some 7 } else none
    extract := fun _ => some {} }

def foodWholeMilk : Food := { description := ("Whole milk").data }

def foodA : Food := { fdcId := some 5 }

def foodB : Food := { fdcId := some 5, description := ("b").data }

def foodC : Food := { fdcId := some 7 }

/-- A sample successful record for the process-loop witness. -/
def recW : ResultRecord := successRecord SRC_SEARCH FLAG_HIGH ST_SEMANTIC_HIGH (some 92) none 1 {}

/-- A fetch oracle: one successful ingredient, everything else raises. -/
def fetchW : Str → FetchOutcome := fun i => if i = ("a").data then .ok recW else .raised

/-! ## Theorems -/

theorem insertSorted_perm (le : α → α → Bool) (a : α) (l : List α) :
    (insertSorted le a l).Perm (a :: l) := by
  induction l with
  | nil => simp [insertSorted]
  | cons b bs ih =>
    simp only [insertSorted]
    split
    · exact List.Perm.refl _
    · exact ((ih.cons b).trans (List.Perm.swap a b bs))

theorem sortBy_perm (le : α → α → Bool) (l : List α) : (sortBy le l).Perm l := by
  induction l with
  | nil => exact List.Perm.refl _
  | cons a as ih =>
    exact (insertSorted_perm le a (sortBy le as)).trans (ih.cons a)

theorem tierProduces_cons {r : Food} {rest : List Food} {n : Nat} :
    tierProduces (r :: rest) n ↔ (n ≠ 0 ∧ r.fdcId = some n) ∨ tierProduces rest n := by
  simp only [tierProduces, List.mem_cons]
  constructor
  · rintro ⟨hn, x, rfl | hx, he⟩
    · exact Or.inl ⟨hn, he⟩
    · exact Or.inr ⟨hn, x, hx, he⟩
  · rintro (⟨hn, he⟩ | ⟨hn, x, hx, he⟩)
    · exact ⟨hn, r, Or.inl rfl, he⟩
    · exact ⟨hn, x, Or.inr hx, he⟩

/-- Characterisation of the seen set after one tier's merge loop. -/
theorem mem_addTier_seen (tier : Nat) (rs : List Food) (st : List TaggedFood × List Nat)
    (m : Nat) : m ∈ (addTier tier rs st).2 ↔ m ∈ st.2 ∨ tierProduces rs m := by
  induction rs generalizing st with
  | nil => simp [addTier, tierProduces]
  | cons r rest ih =>
    cases hfdc : r.fdcId with
    | none =>
      simp only [addTier, hfdc, ih, tierProduces_cons, hfdc]
      tauto
    | some n =>
      by_cases hc : n ≠ 0 ∧ n ∉ st.2
      · simp only [addTier, hfdc, if_pos hc, ih, tierProduces_cons, hfdc, Option.some.injEq,
          List.mem_append, List.mem_singleton]
        constructor
        · rintro ((h | rfl) | h)
          · exact Or.inl h
          · exact Or.inr (Or.inl ⟨hc.1, rfl⟩)
          · exact Or.inr (Or.inr h)
        · rintro (h | (⟨hn, rfl⟩ | h))
          · exact Or.inl (Or.inl h)
          · exact Or.inl (Or.inr rfl)
          · exact Or.inr h
      · simp only [addTier, hfdc, if_neg hc, ih, tierProduces_cons, hfdc, Option.some.injEq]
        constructor
        · rintro (h | h)
          · exact Or.inl h
          · exact Or.inr (Or.inr h)
        · rintro (h | (⟨hn, rfl⟩ | h))
          · exact Or.inl h
          · rcases Decidable.not_and_iff_or_not.1 hc with h0 | hmem
            · exact absurd hn h0
            · exact Or.inl (Decidable.not_not.1 hmem)
          · exact Or.inr h

/-- Elements added by one tier's merge loop: either old, or tagged with this
tier, produced by this tier's list, truthy, and unseen before the loop. -/
theorem mem_addTier_elem (tier : Nat) (rs : List Food) (st : List TaggedFood × List Nat)
    (t : TaggedFood) (ht : t ∈ (addTier tier rs st).1) :
    t ∈ st.1 ∨
      (t.tier = tier ∧ t.food.fdcId = some (fdcKey t) ∧ tierProduces rs (fdcKey t) ∧
        fdcKey t ∉ st.2) := by
  induction rs generalizing st with
  | nil => exact Or.inl ht
  | cons r rest ih =>
    cases hfdc : r.fdcId with
    | none =>
      simp only [addTier, hfdc] at ht
      rcases ih _ ht with h | ⟨h1, h2, h3, h4⟩
      · exact Or.inl h
      · exact Or.inr ⟨h1, h2, tierProduces_cons.2 (Or.inr h3), h4⟩
    | some n =>
      simp only [addTier, hfdc] at ht
      by_cases hc : n ≠ 0 ∧ n ∉ st.2
      · rw [if_pos hc] at ht
        rcases ih _ ht with h | ⟨h1, h2, h3, h4⟩
        · rcases List.mem_append.1 h with h | h
          · exact Or.inl h
          · rcases List.mem_singleton.1 h with rfl
            have hk : fdcKey ⟨r, tier⟩ = n := by simp [fdcKey, hfdc]
            refine Or.inr ⟨rfl, ?_, ?_, ?_⟩
            · rw [hk]; exact hfdc
            · rw [hk]; exact tierProduces_cons.2 (Or.inl ⟨hc.1, hfdc⟩)
            · rw [hk]; exact hc.2
        · refine Or.inr ⟨h1, h2, tierProduces_cons.2 (Or.inr h3), fun hmem => h4 ?_⟩
          simp [hmem]
      · rw [if_neg hc] at ht
        rcases ih _ ht with h | ⟨h1, h2, h3, h4⟩
        · exact Or.inl h
        · exact Or.inr ⟨h1, h2, tierProduces_cons.2 (Or.inr h3), h4⟩

/-- The merge loop keeps the seen set equal to the keys of the accumulator,
and keeps it duplicate-free. -/
theorem addTier_invariant (tier : Nat) (rs : List Food) (st : List TaggedFood × List Nat)
    (hkeys : st.2 = st.1.map fdcKey) (hnd : st.2.Nodup) :
    (addTier tier rs st).2 = (addTier tier rs st).1.map fdcKey ∧
      (addTier tier rs st).2.Nodup := by
  induction rs generalizing st with
  | nil => exact ⟨hkeys, hnd⟩
  | cons r rest ih =>
    cases hfdc : r.fdcId with
    | none =>
      simp only [addTier, hfdc]
      exact ih st hkeys hnd
    | some n =>
      simp only [addTier, hfdc]
      by_cases hc : n ≠ 0 ∧ n ∉ st.2
      · rw [if_pos hc]
        refine ih _ ?_ ?_
        · simp [hkeys, fdcKey, hfdc]
        · refine hnd.append (List.nodup_singleton n) ?_
          intro a ha hb
          rcases List.mem_singleton.1 hb with rfl
          exact hc.2 ha
      · rw [if_neg hc]
        exact ih st hkeys hnd

/-- The merged list is keyed without duplicates and every element is tagged
with the first tier that produced its id. -/
theorem mergeTiers_spec (t1 t2 t3 t4 : List Food) :
    ((mergeTiers t1 t2 t3 t4).map fdcKey).Nodup ∧
      ∀ t ∈ mergeTiers t1 t2 t3 t4,
        t.food.fdcId = some (fdcKey t) ∧
          firstProducingTier t1 t2 t3 t4 (fdcKey t) = some t.tier := by
  have inv1 := addTier_invariant 1 t1 ([], []) rfl List.nodup_nil
  have inv2 := addTier_invariant 2 t2 _ inv1.1 inv1.2
  have inv3 := addTier_invariant 3 t3 _ inv2.1 inv2.2
  have inv4 := addTier_invariant 4 t4 _ inv3.1 inv3.2
  constructor
  · rw [mergeTiers, ← inv4.1]
    exact inv4.2
  · intro t ht
    rw [mergeTiers] at ht
    have seen1 : ∀ m, m ∈ (addTier 1 t1 ([], [])).2 ↔ tierProduces t1 m := by
      intro m
      rw [mem_addTier_seen]
      simp
    have seen2 : ∀ m, m ∈ (addTier 2 t2 (addTier 1 t1 ([], []))).2 ↔
        tierProduces t1 m ∨ tierProduces t2 m := by
      intro m
      rw [mem_addTier_seen, seen1]
    have seen3 : ∀ m, m ∈ (addTier 3 t3 (addTier 2 t2 (addTier 1 t1 ([], [])))).2 ↔
        (tierProduces t1 m ∨ tierProduces t2 m) ∨ tierProduces t3 m := by
      intro m
      rw [mem_addTier_seen, seen2]
    rcases mem_addTier_elem 4 t4 _ t ht with ht3 | ⟨htag, hsome, hprod, hseen⟩
    · rcases mem_addTier_elem 3 t3 _ t ht3 with ht2 | ⟨htag, hsome, hprod, hseen⟩
      · rcases mem_addTier_elem 2 t2 _ t ht2 with ht1 | ⟨htag, hsome, hprod, hseen⟩
        · rcases mem_addTier_elem 1 t1 _ t ht1 with h0 | ⟨htag, hsome, hprod, _⟩
          · cases h0
          · refine ⟨hsome, ?_⟩
            rw [firstProducingTier, if_pos hprod, htag]
        · refine ⟨hsome, ?_⟩
          have h1 : ¬ tierProduces t1 (fdcKey t) := fun h => hseen ((seen1 _).2 h)
          rw [firstProducingTier, if_neg h1, if_pos hprod, htag]
      · refine ⟨hsome, ?_⟩
        have h12 := fun h => hseen ((seen2 _).2 h)
        rw [firstProducingTier, if_neg (fun h => h12 (Or.inl h)),
          if_neg (fun h => h12 (Or.inr h)), if_pos hprod, htag]
    · refine ⟨hsome, ?_⟩
      have h123 := fun h => hseen ((seen3 _).2 h)
      rw [firstProducingTier, if_neg (fun h => h123 (Or.inl (Or.inl h))),
        if_neg (fun h => h123 (Or.inl (Or.inr h))), if_neg (fun h => h123 (Or.inr h)),
        if_pos hprod, htag]

/-- The retry loop only consults attempts `i` with `start ≤ i < start + remaining`. -/
theorem clientLoop_congr (r r' : Nat → Transport α) (onFail : β) (ret : α → β)
    (i remaining : Nat) (h : ∀ j, j < remaining → r (i + j) = r' (i + j)) :
    clientLoop r onFail ret i remaining = clientLoop r' onFail ret i remaining := by
  induction remaining generalizing i with
  | zero => rfl
  | succ n ih =>
    have h0 : r i = r' i := by simpa using h 0 (Nat.succ_pos n)
    simp only [clientLoop, h0]
    cases r' i with
    | success a => rfl
    | timeout =>
      rcases Nat.eq_zero_or_pos n with rfl | hn
      · rfl
      · have := ih (i + 1) (fun j hj => by
          have := h (j + 1) (Nat.succ_lt_succ hj)
          simpa [Nat.add_assoc, Nat.add_comm 1 j] using this)
        simp only [clientLoop, this]
    | transportError =>
      rcases Nat.eq_zero_or_pos n with rfl | hn
      · rfl
      · have := ih (i + 1) (fun j hj => by
          have := h (j + 1) (Nat.succ_lt_succ hj)
          simpa [Nat.add_assoc, Nat.add_comm 1 j] using this)
        simp only [clientLoop, this]

theorem setKey_keys (k : Str) (v : Option NutrientData) (l : List (Str × Option NutrientData)) :
    (setKey k v l).map Prod.fst = l.map Prod.fst := by
  induction l with
  | nil => rfl
  | cons p rest ih =>
    simp only [setKey]
    split
    · simp
    · simp [ih]

theorem lookupKey_setKey_ne (k k0 : Str) (hne : k0 ≠ k) (v : Option NutrientData)
    (l : List (Str × Option NutrientData)) : lookupKey k0 (setKey k v l) = lookupKey k0 l := by
  induction l with
  | nil => rfl
  | cons p rest ih =>
    rcases p with ⟨pk, pv⟩
    simp only [setKey]
    by_cases h : pk = k
    · rw [if_pos h]
      have h2 : pk ≠ k0 := fun he => hne (he ▸ h)
      simp only [lookupKey]
      rw [if_neg h2, if_neg h2]
    · rw [if_neg h]
      simp only [lookupKey]
      by_cases h0 : pk = k0
      · rw [if_pos h0, if_pos h0]
      · rw [if_neg h0, if_neg h0, ih]

/-- One extraction step keeps the key list unchanged. -/
theorem extractStep_keys (result : List (Str × Option NutrientData)) (p : Str × NutrientData) :
    (extractStep result p).map Prod.fst = result.map Prod.fst := by
  unfold extractStep
  cases mapUsdaNutrientToStandard p.1 with
  | none => rfl
  | some nid =>
    by_cases hl : (lookupKey nid result).isSome
    · simp only [if_pos hl, setKey_keys]
    · simp only [if_neg hl]

/-- The canonical key list of the normalizer output is exactly the id list. -/
theorem extractAllNutrients_keys (usdaNutrients : List (Str × NutrientData))
    (allNutrientIds : List Str) :
    (extractAllNutrients usdaNutrients allNutrientIds).map Prod.fst = allNutrientIds := by
  have h : ∀ init : List (Str × Option NutrientData),
      (usdaNutrients.foldl extractStep init).map Prod.fst = init.map Prod.fst := by
    intro init
    induction usdaNutrients generalizing init with
    | nil => rfl
    | cons p rest ih =>
      simp only [List.foldl_cons]
      rw [ih, extractStep_keys]
  rw [extractAllNutrients, h]
  induction allNutrientIds with
  | nil => rfl
  | cons a rest ih => simp [ih]

/-- One extraction step does not touch the value of an unmapped id. -/
theorem extractStep_preserves (result : List (Str × Option NutrientData))
    (p : Str × NutrientData) (nid : Str) (hm : mapUsdaNutrientToStandard p.1 ≠ some nid) :
    lookupKey nid (extractStep result p) = lookupKey nid result := by
  cases he : mapUsdaNutrientToStandard p.1 with
  | none => simp only [extractStep, he]
  | some k =>
    simp only [extractStep, he]
    by_cases hl : (lookupKey k result).isSome
    · rw [if_pos hl]
      refine lookupKey_setKey_ne k nid ?_ _ result
      intro h2
      exact hm (h2 ▸ he)
    · rw [if_neg hl]

/-- A canonical id that no catalog name maps to keeps its `None` value. -/
theorem extractAllNutrients_missing (usdaNutrients : List (Str × NutrientData))
    (allNutrientIds : List Str) (nid : Str) (hmem : nid ∈ allNutrientIds)
    (hmiss : ∀ p ∈ usdaNutrients, mapUsdaNutrientToStandard p.1 ≠ some nid) :
    lookupKey nid (extractAllNutrients usdaNutrients allNutrientIds) = some none := by
  have hinit : lookupKey nid (allNutrientIds.map fun i => (i, none)) = some none := by
    induction allNutrientIds with
    | nil => cases hmem
    | cons a rest ih =>
      rcases List.mem_cons.1 hmem with rfl | h
      · simp [lookupKey]
      · simp only [List.map_cons, lookupKey]
        split
        · rfl
        · exact ih h
  have h : ∀ init : List (Str × Option NutrientData), lookupKey nid init = some none →
      lookupKey nid (usdaNutrients.foldl extractStep init) = some none := by
    induction usdaNutrients with
    | nil => intro init h; exact h
    | cons p rest ih =>
      intro init h
      simp only [List.foldl_cons]
      refine ih (fun q hq => hmiss q (List.mem_cons_of_mem _ hq)) _ ?_
      rw [extractStep_preserves init p nid (hmiss p (List.mem_cons_self _ _)), h]
  exact h _ hinit

/-- The initial canonical map binds every listed id to `None`. -/
theorem lookupKey_initial (allNutrientIds : List Str) (nid : Str) (hmem : nid ∈ allNutrientIds) :
    lookupKey nid (allNutrientIds.map fun i => (i, none)) = some none := by
  induction allNutrientIds with
  | nil => cases hmem
  | cons a rest ih =>
    rcases List.mem_cons.1 hmem with rfl | h
    · simp [lookupKey]
    · simp only [List.map_cons, lookupKey]
      split
      · rfl
      · exact ih h

/-- Overwriting a present key makes the lookup return the new value. -/
theorem lookupKey_setKey_self (k : Str) (v : Option NutrientData)
    (l : List (Str × Option NutrientData)) (h : (lookupKey k l).isSome) :
    lookupKey k (setKey k v l) = some v := by
  induction l with
  | nil => simp [lookupKey] at h
  | cons p rest ih =>
    rcases p with ⟨pk, pv⟩
    simp only [setKey]
    by_cases hk : pk = k
    · rw [if_pos hk]
      simp [lookupKey, if_pos hk]
    · rw [if_neg hk]
      simp only [lookupKey, if_neg hk] at h ⊢
      exact ih h

theorem lookupQ_append_left (k : Str) (l1 l2 : List (Str × ℚ)) (v : ℚ)
    (h : lookupQ k l1 = some v) : lookupQ k (l1 ++ l2) = some v := by
  induction l1 with
  | nil => simp [lookupQ] at h
  | cons p rest ih =>
    rcases p with ⟨pk, pv⟩
    simp only [lookupQ, List.cons_append] at h ⊢
    split at h
    · rw [if_pos (by assumption)]
      exact h
    · rw [if_neg (by assumption)]
      exact ih h

theorem foldl_appendSlot_acc (specs : List (Str × Option ℚ)) (acc : List (Str × ℚ)) :
    specs.foldl (fun acc p => appendSlot acc p.1 p.2) acc =
      acc ++ specs.foldl (fun acc p => appendSlot acc p.1 p.2) [] := by
  induction specs generalizing acc with
  | nil => simp
  | cons p rest ih =>
    simp only [List.foldl_cons]
    rw [ih (appendSlot acc p.1 p.2), ih (appendSlot [] p.1 p.2)]
    cases hv : p.2 with
    | none => simp [appendSlot]
    | some q => simp [appendSlot]

/-- When the calories rule yields a value, the built dictionary binds
`"calories"` to it (the calories slot is filled first). -/
theorem extractBasicNutrients_calories (standardized : List (Str × Option NutrientData))
    (v : ℚ) (h : caloriesValue standardized = some v) :
    lookupQ (("calories").data) (extractBasicNutrients standardized) = some v := by
  have hbuilt : lookupQ (("calories").data)
      ((basicSlotSpecs standardized).foldl (fun acc p => appendSlot acc p.1 p.2) []) = some v := by
    rw [basicSlotSpecs, List.foldl_cons, foldl_appendSlot_acc, h]
    simp only [appendSlot, List.nil_append]
    exact lookupQ_append_left _ _ _ _ (by simp [lookupQ])
  rw [extractBasicNutrients]
  split
  · split
    · exact lookupQ_append_left _ _ _ _ hbuilt
    · exact hbuilt
  · exact hbuilt

/-! ## Structural lemmas about the orchestrator steps -/

/-- Flags a record emitted by the nutritional branch can carry, when the
threshold is one of the two the orchestrator uses. -/
theorem gateStep_emit_flag (env : Env) (a : Nat) (isLast : Bool) (s threshold : ℚ)
    (meta : MetaState) (hth : threshold = 80 ∨ threshold = 90) (r : ResultRecord)
    (h : (gateStep env a isLast s threshold meta).1 = .emit r) :
    r.flag = FLAG_HIGH ∨ r.flag = FLAG_MID ∨ r.flag = FLAG_NO_MAPPING := by
  unfold gateStep at h
  cases hsim : env.simResults a with
  | nil =>
    rw [hsim] at h
    dsimp only at h
    cases isLast with
    | true =>
      rw [if_pos rfl] at h
      cases h
      exact Or.inr (Or.inr rfl)
    | false =>
      rw [if_neg (by simp)] at h
      cases h
  | cons bm rest2 =>
    rw [hsim] at h
    dsimp only at h
    by_cases hns : bm.nutScore ≥ threshold
    · rw [if_pos hns] at h
      cases hbind : bm.fdcId.bind env.details with
      | some fd =>
        rw [hbind] at h
        dsimp only at h
        cases hext : env.extract fd with
        | some ed =>
          rw [hext] at h
          dsimp only at h
          cases h
          dsimp only [successRecord]
          by_cases h90 : bm.nutScore ≥ 90
          · rw [if_pos h90]
            by_cases h80 : s ≥ 80
            · rw [if_pos h80]
              exact Or.inl rfl
            · rw [if_neg h80]
              exact Or.inr (Or.inl rfl)
          · rw [if_neg h90]
            by_cases h80 : bm.nutScore ≥ 80
            · rw [if_pos h80]
              exact Or.inr (Or.inl rfl)
            · exfalso
              rcases hth with rfl | rfl
              · exact h80 hns
              · exact h90 hns
        | none =>
          rw [hext] at h
          dsimp only at h
          cases isLast with
          | true =>
            rw [if_pos rfl] at h
            cases h
            exact Or.inr (Or.inr rfl)
          | false =>
            rw [if_neg (by simp)] at h
            cases h
      | none =>
        rw [hbind] at h
        dsimp only at h
        cases isLast with
        | true =>
          rw [if_pos rfl] at h
          cases h
          exact Or.inr (Or.inr rfl)
        | false =>
          rw [if_neg (by simp)] at h
          cases h
    · rw [if_neg hns] at h
      cases h

/-- A mapping record emitted by the nutritional branch carries a nutritional
score at least the active threshold. -/
theorem gateStep_emit_search (env : Env) (a : Nat) (isLast : Bool) (s threshold : ℚ)
    (meta : MetaState) (r : ResultRecord)
    (h : (gateStep env a isLast s threshold meta).1 = .emit r)
    (hsrc : r.source = some SRC_SEARCH) :
    ∃ ns, r.nutScore = some ns ∧ ns ≥ threshold := by
  unfold gateStep at h
  cases hsim : env.simResults a with
  | nil =>
    rw [hsim] at h
    dsimp only at h
    cases isLast with
    | true =>
      rw [if_pos rfl] at h
      cases h
      cases hsrc
    | false =>
      rw [if_neg (by simp)] at h
      cases h
  | cons bm rest2 =>
    rw [hsim] at h
    dsimp only at h
    by_cases hns : bm.nutScore ≥ threshold
    · rw [if_pos hns] at h
      cases hbind : bm.fdcId.bind env.details with
      | some fd =>
        rw [hbind] at h
        dsimp only at h
        cases hext : env.extract fd with
        | some ed =>
          rw [hext] at h
          dsimp only at h
          cases h
          exact ⟨bm.nutScore, rfl, hns⟩
        | none =>
          rw [hext] at h
          dsimp only at h
          cases isLast with
          | true =>
            rw [if_pos rfl] at h
            cases h
            cases hsrc
          | false =>
            rw [if_neg (by simp)] at h
            cases h
      | none =>
        rw [hbind] at h
        dsimp only at h
        cases isLast with
        | true =>
          rw [if_pos rfl] at h
          cases h
          cases hsrc
        | false =>
          rw [if_neg (by simp)] at h
          cases h
    · rw [if_neg hns] at h
      cases h

/-- Case analysis on where the direct-mapping branch lands. -/
theorem directStep_emit_cases (env : Env) (a : Nat) (isLast : Bool) (best : Verified)
    (rest : List Verified) (meta : MetaState) (r : ResultRecord)
    (h : (directStep env a isLast best rest meta).1 = .emit r) :
    (r.source = some SRC_SEARCH ∧ r.flag = FLAG_HIGH ∧ r.mappingStatus = ST_SEMANTIC_HIGH) ∨
      (r.source = none ∧ r.flag = FLAG_NO_MAPPING) := by
  unfold directStep at h
  dsimp only at h
  cases hfdc : (if truthyId best.fdcId then best.fdcId
      else rest.findSome? fun alt => if truthyId alt.fdcId then alt.fdcId else none) with
  | none =>
    rw [hfdc] at h
    dsimp only at h
    cases isLast with
    | true =>
      rw [if_pos rfl] at h
      cases h
      exact Or.inr ⟨rfl, rfl⟩
    | false =>
      rw [if_neg (by simp)] at h
      cases h
  | some fdc =>
    rw [hfdc] at h
    dsimp only at h
    cases hfood : (match env.details fdc with
      | some fd => some fd
      | none =>
        rest.findSome? fun (alt : Verified) =>
          match alt.fdcId with
          | some m => if m ≠ 0 ∧ m ≠ fdc then env.details m else none
          | none => none) with
    | none =>
      rw [hfood] at h
      dsimp only at h
      cases isLast with
      | true =>
        rw [if_pos rfl] at h
        cases h
        exact Or.inr ⟨rfl, rfl⟩
      | false =>
        rw [if_neg (by simp)] at h
        cases h
    | some fd =>
      rw [hfood] at h
      dsimp only at h
      cases hext : env.extract fd with
      | some ed =>
        rw [hext] at h
        dsimp only at h
        cases h
        exact Or.inl ⟨rfl, rfl, rfl⟩
      | none =>
        rw [hext] at h
        cases h

/-- Flags a record emitted by one attempt iteration can carry. -/
theorem attemptStep_emit_flag (env : Env) (a : Nat) (isLast : Bool) (meta : MetaState)
    (r : ResultRecord) (h : (attemptStep env a isLast meta).1.1 = .emit r) :
    r.flag = FLAG_HIGH ∨ r.flag = FLAG_MID ∨ r.flag = FLAG_NO_MAPPING := by
  unfold attemptStep at h
  cases hsr : env.searchResults a with
  | nil =>
    rw [hsr] at h
    dsimp only at h
    cases isLast with
    | true =>
      rw [if_pos rfl] at h
      cases h
      exact Or.inr (Or.inr rfl)
    | false =>
      rw [if_neg (by simp)] at h
      cases h
  | cons x xs =>
    rw [hsr] at h
    dsimp only at h
    cases hv : env.verified a with
    | nil =>
      rw [hv] at h
      dsimp only at h
      cases isLast with
      | true =>
        rw [if_pos rfl] at h
        cases h
        exact Or.inr (Or.inr rfl)
      | false =>
        rw [if_neg (by simp)] at h
        cases h
    | cons best rest =>
      rw [hv] at h
      dsimp only at h
      by_cases h90 : best.semScore ≥ 90
      · rw [if_pos h90] at h
        rcases directStep_emit_cases env a isLast best rest meta r h with
          ⟨_, hf, _⟩ | ⟨_, hf⟩
        · exact Or.inl hf
        · exact Or.inr (Or.inr hf)
      · rw [if_neg h90] at h
        by_cases h80 : best.semScore ≥ 80
        · rw [if_pos h80] at h
          exact gateStep_emit_flag env a isLast best.semScore 80 meta (Or.inl rfl) r h
        · rw [if_neg h80] at h
          by_cases h65 : best.semScore ≥ 65
          · rw [if_pos h65] at h
            exact gateStep_emit_flag env a isLast best.semScore 90 meta (Or.inr rfl) r h
          · rw [if_neg h65] at h
            cases isLast with
            | true =>
              rw [if_pos rfl] at h
              cases h
              exact Or.inr (Or.inr rfl)
            | false =>
              rw [if_neg (by simp)] at h
              cases h

/-- Accumulated shape of the `process_ingredients` loop from any start state. -/
theorem processFold (fetch : Str → FetchOutcome) (ingredients : List Str) (st : ProcessState) :
    (ingredients.foldl (processStep fetch) st).results =
      st.results ++ ingredients.filterMap (fun i => recordOf (fetch i)) ∧
    (ingredients.foldl (processStep fetch) st).failed =
      st.failed ++ ingredients.filter (landsOnFailed fetch) := by
  induction ingredients generalizing st with
  | nil => simp
  | cons i rest ih =>
    simp only [List.foldl_cons, List.filterMap_cons, List.filter_cons]
    cases hf : fetch i with
    | ok r =>
      by_cases hfl : r.flag = FLAG_HIGH ∨ r.flag = FLAG_MID
      · have hstep : processStep fetch st i =
            { st with results := st.results ++ [r], successful := st.successful + 1 } := by
          unfold processStep
          rw [hf]
          dsimp only
          rw [if_pos hfl]
        rw [hstep]
        rcases ih { st with results := st.results ++ [r], successful := st.successful + 1 }
          with ⟨hres, hfail⟩
        rw [hres, hfail]
        constructor
        · simp [recordOf, hf]
        · simp [landsOnFailed, hf, hfl]
      · have hstep : processStep fetch st i =
            { st with
              results := st.results ++ [r]
              failed := st.failed ++ [i]
              failedCount := st.failedCount + 1 } := by
          unfold processStep
          rw [hf]
          dsimp only
          rw [if_neg hfl]
          split <;> rfl
        rw [hstep]
        rcases ih { st with
          results := st.results ++ [r]
          failed := st.failed ++ [i]
          failedCount := st.failedCount + 1 } with ⟨hres, hfail⟩
        rw [hres, hfail]
        constructor
        · simp [recordOf, hf]
        · simp [landsOnFailed, hf, hfl]
    | noneResult =>
      have hstep : processStep fetch st i =
          { st with failed := st.failed ++ [i], failedCount := st.failedCount + 1 } := by
        unfold processStep
        rw [hf]
      rw [hstep]
      rcases ih { st with failed := st.failed ++ [i], failedCount := st.failedCount + 1 }
        with ⟨hres, hfail⟩
      rw [hres, hfail]
      constructor
      · simp [recordOf, hf]
      · simp [landsOnFailed, hf]
    | raised =>
      have hstep : processStep fetch st i =
          { st with failed := st.failed ++ [i], failedCount := st.failedCount + 1 } := by
        unfold processStep
        rw [hf]
      rw [hstep]
      rcases ih { st with failed := st.failed ++ [i], failedCount := st.failedCount + 1 }
        with ⟨hres, hfail⟩
      rw [hres, hfail]
      constructor
      · simp [recordOf, hf]
      · simp [landsOnFailed, hf]

/-- The search path emits only the three non-LOW flags. -/
theorem fetchSearch_flag (env : Env) :
    (fetchSearch env).1.flag = FLAG_HIGH ∨ (fetchSearch env).1.flag = FLAG_MID ∨
      (fetchSearch env).1.flag = FLAG_NO_MAPPING := by
  unfold fetchSearch
  rcases h1 : attemptStep env 1 false {} with ⟨⟨o1, m1⟩, g1⟩
  cases o1 with
  | emit r =>
    dsimp only
    exact attemptStep_emit_flag env 1 false {} r (by rw [h1])
  | retry =>
    dsimp only
    rcases h2 : attemptStep env 2 true m1 with ⟨⟨o2, m2⟩, g2⟩
    cases o2 with
    | emit r =>
      dsimp only
      exact attemptStep_emit_flag env 2 true m1 r (by rw [h2])
    | retry =>
      dsimp only
      exact Or.inr (Or.inr rfl)

/-- A failed transport attempt is a timeout or a transport error. -/
theorem fail_shape (t : Transport α) (h : t.isFail = true) :
    t = .timeout ∨ t = .transportError := by
  cases t with
  | success a => simp [Transport.isFail] at h
  | timeout => exact Or.inl rfl
  | transportError => exact Or.inr rfl

/-! ## Claims -/

/--
Claim C1 (counterexample).  The claim says an unexpected exception inside
per-ingredient processing yields a Result Record with flag
`NO_MAPPING_FOUND` and `mapping_status = exception`, so that every input
yields exactly one record.  In the code the `except` branch of
`process_ingredients` only logs and appends the ingredient to the failed
list: with one ingredient whose processing raises, the results list is
empty — zero records, and in particular no record with
`mapping_status = "exception"` (that string occurs nowhere in the source).
-/
theorem claimC1_counterexample :
    (processIngredients [("egg").data] fun _ => .raised).results = [] ∧
    (processIngredients [("egg").data] fun _ => .raised).failed = [("egg").data] ∧
    ∀ r ∈ (processIngredients [("egg").data] fun _ => .raised).results,
      r.mappingStatus ≠ ("exception").data := by
  refine ⟨rfl, rfl, ?_⟩
  intro r hr
  have h : (processIngredients [("egg").data] fun _ => .raised).results = [] := rfl
  rw [h] at hr
  cases hr

/--
Claim C1 (amended).  The per-ingredient loop of `process_ingredients` never
propagates an exception; every ingredient whose processing returns a record
contributes exactly that one record to the results, in order, but an
ingredient whose processing raises contributes no record at all — it is
only appended to the failed list.
-/
theorem processIngredients_record_per_ingredient (ingredients : List Str)
    (fetch : Str → FetchOutcome) :
    (processIngredients ingredients fetch).results =
      ingredients.filterMap (fun i => recordOf (fetch i)) ∧
    ∀ i ∈ ingredients, fetch i = .raised →
      i ∈ (processIngredients ingredients fetch).failed := by
  have h := processFold fetch ingredients {}
  constructor
  · have h1 := h.1
    rw [processIngredients]
    rw [h1]
    rfl
  · intro i hi hr
    have h2 := h.2
    rw [processIngredients, h2]
    refine List.mem_append.2 (Or.inr (List.mem_filter.2 ⟨hi, ?_⟩))
    simp [landsOnFailed, hr]

/-- Witness for the amended C1 theorem at a concrete ingredient list and
fetch oracle: the successful ingredient yields its record, the raising one
lands on the failed list with no record. -/
theorem processIngredients_record_per_ingredient_witness :
    (processIngredients [("a").data, ("b").data] fetchW).results = [recW] ∧
    ("b").data ∈ (processIngredients [("a").data, ("b").data] fetchW).failed := by
  constructor
  · rw [(processIngredients_record_per_ingredient [("a").data, ("b").data] fetchW).1]
    decide
  · exact (processIngredients_record_per_ingredient [("a").data, ("b").data] fetchW).2
      (("b").data) (by decide) (by decide)

/--
Claim C2 (counterexample).  The claim says every Result Record, including
`NO_MAPPING_FOUND` records, carries every canonical nutrient id as a key.
But `_create_failed_result` sets `standardized_nutrients` to the empty
dictionary: the record produced for an ingredient with no search results is
`NO_MAPPING_FOUND` and its nutrients mapping has no keys at all — in
particular not `nutrient-calories-energy`.
-/
theorem claimC2_counterexample :
    (fetchNutritionForIngredient envNoResults).1.flag = FLAG_NO_MAPPING ∧
    (fetchNutritionForIngredient envNoResults).1.standardizedNutrients = [] ∧
    ("nutrient-calories-energy").data ∉
      ((fetchNutritionForIngredient envNoResults).1.standardizedNutrients.map Prod.fst) := by
  refine ⟨by decide, rfl, ?_⟩
  intro hmem
  have h : ((fetchNutritionForIngredient envNoResults).1.standardizedNutrients.map
      Prod.fst) = [] := rfl
  rw [h] at hmem
  cases hmem

/--
Claim C2 (amended).  Records built from a successful extraction carry the
full canonical id set: `extract_all_nutrients` returns exactly the
definition table's ids as keys, in order, and an id no catalog name maps to
keeps the value null.  Records built by `_create_failed_result` instead
carry an empty nutrients mapping.
-/
theorem canonicalRow_keys :
    (∀ (usda : List (Str × NutrientData)) (ids : List Str),
      (extractAllNutrients usda ids).map Prod.fst = ids) ∧
    (∀ (usda : List (Str × NutrientData)) (ids : List Str) (nid : Str), nid ∈ ids →
      (∀ p ∈ usda, mapUsdaNutrientToStandard p.1 ≠ some nid) →
      lookupKey nid (extractAllNutrients usda ids) = some none) ∧
    (∀ (flag status : Str) (meta : MetaState) (a : Nat),
      (createFailedResult flag status meta a).standardizedNutrients = []) :=
  ⟨extractAllNutrients_keys, extractAllNutrients_missing, fun _ _ _ _ => rfl⟩

/-- Witness for the amended C2 theorem: with a Protein-only catalog payload
and two canonical ids, the key list is preserved and the unreported energy
slot is null. -/
theorem canonicalRow_keys_witness :
    (extractAllNutrients [((("Protein").data), ⟨5, ("g").data⟩)]
      [("nutrient-calories-energy").data, ("nutrient-protein").data]).map Prod.fst =
      [("nutrient-calories-energy").data, ("nutrient-protein").data] ∧
    lookupKey (("nutrient-calories-energy").data)
      (extractAllNutrients [((("Protein").data), ⟨5, ("g").data⟩)]
        [("nutrient-calories-energy").data, ("nutrient-protein").data]) = some none :=
  ⟨canonicalRow_keys.1 _ _, canonicalRow_keys.2.1 _ _ _ (by decide) (by decide)⟩

/--
Claim C4.  An ingredient resolved through the curated fast path (curated
entry found, detail fetch and extraction truthy) yields a record with
`source = curated_mapping`, flag `HIGH_CONFIDENCE`, semantic and
nutritional scores both 100, and `retry_attempts = 0`.
-/
theorem curatedFastPath_fields (env : Env) (fdc : Nat) (fd : FoodData) (ed : ExtractedData)
    (hm : env.mapping = some fdc) (hd : env.details fdc = some fd)
    (he : env.extract fd = some ed) :
    (fetchNutritionForIngredient env).1.source = some SRC_CURATED ∧
    (fetchNutritionForIngredient env).1.flag = FLAG_HIGH ∧
    (fetchNutritionForIngredient env).1.semScore = some 100 ∧
    (fetchNutritionForIngredient env).1.nutScore = some 100 ∧
    (fetchNutritionForIngredient env).1.retryAttempts = 0 := by
  have h : fetchNutritionForIngredient env =
      (successRecord SRC_CURATED FLAG_HIGH ST_CURATED (some 100) (some 100) 0 ed, []) := by
    unfold fetchNutritionForIngredient
    rw [hm]
    dsimp only
    rw [hd]
    dsimp only
    rw [he]
  rw [h]
  exact ⟨rfl, rfl, rfl, rfl, rfl⟩

/-- Witness for C4 at a concrete environment with a curated hit on id 7. -/
theorem curatedFastPath_fields_witness :
    (fetchNutritionForIngredient envCurated).1.source = some SRC_CURATED ∧
    (fetchNutritionForIngredient envCurated).1.flag = FLAG_HIGH ∧
    (fetchNutritionForIngredient envCurated).1.semScore = some 100 ∧
    (fetchNutritionForIngredient envCurated).1.nutScore = some 100 ∧
    (fetchNutritionForIngredient envCurated).1.retryAttempts = 0 :=
  curatedFastPath_fields envCurated 7 { fdcId := some 7 } {} rfl (by decide) rfl

/--
Claim C10.  The `LOW_CONFIDENCE` assignment in the search path's
nutritional-acceptance branch requires the best nutritional score to be
below 80 while the enclosing guard requires it to be at least the
threshold, which is always 80 or 90; hence no record the orchestrator
returns ever carries flag `LOW_CONFIDENCE`.
-/
theorem lowConfidence_unreachable (env : Env) :
    (fetchNutritionForIngredient env).1.flag ≠ FLAG_LOW := by
  have hne : ∀ f : Str, f = FLAG_HIGH ∨ f = FLAG_MID ∨ f = FLAG_NO_MAPPING →
      f ≠ FLAG_LOW := by
    rintro f (rfl | rfl | rfl) <;> decide
  unfold fetchNutritionForIngredient
  cases hm : env.mapping with
  | none => exact hne _ (fetchSearch_flag env)
  | some fdc =>
    dsimp only
    cases hd : env.details fdc with
    | none => exact hne _ (fetchSearch_flag env)
    | some fd =>
      dsimp only
      cases he : env.extract fd with
      | none => exact hne _ (fetchSearch_flag env)
      | some ed =>
        dsimp only
        show FLAG_HIGH ≠ FLAG_LOW
        decide

/--
Claim C3.  In a search-path attempt that reaches the semantic switch (search
results and verified results nonempty), with best semantic score `s`:
for `s ≥ 90` the nutritional gate is not invoked and any emitted mapping
record is `HIGH_CONFIDENCE` with status `search_verified_semantic_high`;
for `80 ≤ s < 90` the gate is invoked once with acceptance threshold 80 and
any emitted mapping record has nutritional score ≥ 80; for `65 ≤ s < 80`
the gate is invoked once with threshold 90 and any emitted mapping record
has nutritional score ≥ 90; for `s < 65` the gate is not invoked and the
attempt retries (when not last) or emits `NO_MAPPING_FOUND` with status
`semantic_score_too_low` (when last).
-/
theorem semanticBand_dispatch (env : Env) (a : Nat) (isLast : Bool) (meta : MetaState)
    (x : TaggedFood) (xs : List TaggedFood) (hsr : env.searchResults a = x :: xs)
    (best : Verified) (rest : List Verified) (hv : env.verified a = best :: rest) :
    (best.semScore ≥ 90 →
      (attemptStep env a isLast meta).2 = [] ∧
      ∀ r, (attemptStep env a isLast meta).1.1 = .emit r → r.source = some SRC_SEARCH →
        r.flag = FLAG_HIGH ∧ r.mappingStatus = ST_SEMANTIC_HIGH) ∧
    (80 ≤ best.semScore ∧ best.semScore < 90 →
      (attemptStep env a isLast meta).2 = [⟨a, 80⟩] ∧
      ∀ r, (attemptStep env a isLast meta).1.1 = .emit r → r.source = some SRC_SEARCH →
        ∃ ns, r.nutScore = some ns ∧ ns ≥ 80) ∧
    (65 ≤ best.semScore ∧ best.semScore < 80 →
      (attemptStep env a isLast meta).2 = [⟨a, 90⟩] ∧
      ∀ r, (attemptStep env a isLast meta).1.1 = .emit r → r.source = some SRC_SEARCH →
        ∃ ns, r.nutScore = some ns ∧ ns ≥ 90) ∧
    (best.semScore < 65 →
      (attemptStep env a isLast meta).2 = [] ∧
      (isLast = false → (attemptStep env a isLast meta).1.1 = .retry) ∧
      (isLast = true → (attemptStep env a isLast meta).1.1 =
        .emit (createFailedResult FLAG_NO_MAPPING ST_SEM_TOO_LOW
          { meta with sem := some best.semScore } a))) := by
  refine ⟨?_, ?_, ?_, ?_⟩
  · intro h90
    have hstep : attemptStep env a isLast meta = (directStep env a isLast best rest meta, []) := by
      unfold attemptStep
      rw [hsr]
      dsimp only
      rw [hv]
      dsimp only
      rw [if_pos h90]
    rw [hstep]
    refine ⟨rfl, ?_⟩
    intro r hr hsrc
    rcases directStep_emit_cases env a isLast best rest meta r hr with
      ⟨_, hf, hs2⟩ | ⟨hnone, _⟩
    · exact ⟨hf, hs2⟩
    · rw [hnone] at hsrc
      cases hsrc
  · rintro ⟨h80, h90⟩
    have hstep : attemptStep env a isLast meta =
        (gateStep env a isLast best.semScore 80 meta, [⟨a, 80⟩]) := by
      unfold attemptStep
      rw [hsr]
      dsimp only
      rw [hv]
      dsimp only
      rw [if_neg (not_le.mpr h90), if_pos h80]
    rw [hstep]
    exact ⟨rfl, fun r hr hsrc =>
      gateStep_emit_search env a isLast best.semScore 80 meta r hr hsrc⟩
  · rintro ⟨h65, h80⟩
    have hstep : attemptStep env a isLast meta =
        (gateStep env a isLast best.semScore 90 meta, [⟨a, 90⟩]) := by
      unfold attemptStep
      rw [hsr]
      dsimp only
      rw [hv]
      dsimp only
      rw [if_neg (not_le.mpr (lt_of_lt_of_le h80 (by norm_num))),
        if_neg (not_le.mpr h80), if_pos h65]
    rw [hstep]
    exact ⟨rfl, fun r hr hsrc =>
      gateStep_emit_search env a isLast best.semScore 90 meta r hr hsrc⟩
  · intro h65
    have h80 : ¬ best.semScore ≥ 80 := not_le.mpr (lt_of_lt_of_le h65 (by norm_num))
    have h90 : ¬ best.semScore ≥ 90 := not_le.mpr (lt_of_lt_of_le h65 (by norm_num))
    have h65n : ¬ best.semScore ≥ 65 := not_le.mpr h65
    cases isLast with
    | false =>
      have hstep : attemptStep env a false meta =
          ((.retry, { meta with sem := some best.semScore }), []) := by
        unfold attemptStep
        rw [hsr]
        dsimp only
        rw [hv]
        dsimp only
        rw [if_neg h90, if_neg h80, if_neg h65n]
        rw [if_neg (by simp)]
      rw [hstep]
      refine ⟨rfl, fun _ => rfl, ?_⟩
      intro hc
      exact nomatch hc
    | true =>
      have hstep : attemptStep env a true meta =
          ((.emit (createFailedResult FLAG_NO_MAPPING ST_SEM_TOO_LOW
            { meta with sem := some best.semScore } a),
            { meta with sem := some best.semScore }), []) := by
        unfold attemptStep
        rw [hsr]
        dsimp only
        rw [hv]
        dsimp only
        rw [if_neg h90, if_neg h80, if_neg h65n]
        rw [if_pos rfl]
      rw [hstep]
      refine ⟨rfl, ?_, fun _ => rfl⟩
      intro hc
      exact nomatch hc

/-- Witness for C3: semantic 92 records no gate call; semantic 85 records
exactly one gate call with threshold 80, in attempt 1. -/
theorem semanticBand_dispatch_witness :
    (attemptStep envSem92 1 false {}).2 = [] ∧
    (attemptStep envSem85 1 false {}).2 = [⟨1, (80 : ℚ)⟩] :=
  ⟨((semanticBand_dispatch envSem92 1 false {} _ _ rfl _ _ rfl).1 (by decide)).1,
   ((semanticBand_dispatch envSem85 1 false {} _ _ rfl _ _ rfl).2.1 (by decide)).1⟩

/--
Claim C5.  The comprehensive 4-tier search returns at most 80 candidates;
each FDC id appears at most once in the output; and every returned
candidate carries its id and is tagged with the first tier, in order
1 → 4, that produced that id.
-/
theorem searchComprehensive_dedup (t1 t2 t3 t4 : List Food) (ingredient : Option Str) :
    (searchComprehensive t1 t2 t3 t4 ingredient).length ≤ 80 ∧
    ((searchComprehensive t1 t2 t3 t4 ingredient).map fdcKey).Nodup ∧
    ∀ t ∈ searchComprehensive t1 t2 t3 t4 ingredient,
      t.food.fdcId = some (fdcKey t) ∧
        firstProducingTier t1 t2 t3 t4 (fdcKey t) = some t.tier := by
  obtain ⟨hnd, helem⟩ := mergeTiers_spec t1 t2 t3 t4
  cases ingredient with
  | none =>
    unfold searchComprehensive
    dsimp only
    have hperm := sortBy_perm tierFdcLe (mergeTiers t1 t2 t3 t4)
    refine ⟨?_, ?_, ?_⟩
    · rw [List.length_take]
      exact min_le_left _ _
    · have hnd2 : ((sortBy tierFdcLe (mergeTiers t1 t2 t3 t4)).map fdcKey).Nodup :=
        ((hperm.map fdcKey).nodup_iff).2 hnd
      exact ((List.take_sublist 80 _).map fdcKey).nodup hnd2
    · intro t ht
      exact helem t (hperm.mem_iff.1 (List.take_subset 80 _ ht))
  | some ing =>
    unfold searchComprehensive
    dsimp only
    have hperm := sortBy_perm (fun a b : TaggedFood × ℤ => a.2 ≥ b.2)
      ((mergeTiers t1 t2 t3 t4).enum.map fun p =>
        (p.2, scoreRelevanceAdvanced p.2.food ing p.1))
    have hfst : (((mergeTiers t1 t2 t3 t4).enum.map fun p =>
        (p.2, scoreRelevanceAdvanced p.2.food ing p.1)).map Prod.fst) =
        mergeTiers t1 t2 t3 t4 := by
      rw [List.map_map]
      exact List.enum_map_snd _
    refine ⟨?_, ?_, ?_⟩
    · rw [List.length_map, List.length_take]
      exact min_le_left _ _
    · rw [List.map_map]
      have hsub : ((sortBy (fun a b : TaggedFood × ℤ => a.2 ≥ b.2)
          ((mergeTiers t1 t2 t3 t4).enum.map fun p =>
            (p.2, scoreRelevanceAdvanced p.2.food ing p.1))).map (fdcKey ∘ Prod.fst)).Nodup := by
        have := (hperm.map (fdcKey ∘ Prod.fst)).nodup_iff
        rw [this]
        rw [← List.map_map]
        rw [hfst]
        exact hnd
      exact ((List.take_sublist 80 _).map (fdcKey ∘ Prod.fst)).nodup hsub
    · intro t ht
      rcases List.mem_map.1 ht with ⟨p, hp, rfl⟩
      have hpmem := hperm.mem_iff.1 (List.take_subset 80 _ hp)
      have : p.1 ∈ mergeTiers t1 t2 t3 t4 := by
        rw [← hfst]
        exact List.mem_map_of_mem Prod.fst hpmem
      exact helem p.1 this

/-- Witness for C5 at two concrete tier lists sharing FDC id 5: the output
is small, id-unique, and id 5 is attributed to tier 1. -/
theorem searchComprehensive_dedup_witness :
    (searchComprehensive [foodA] [foodB, foodC] [] [] none).length ≤ 80 ∧
    ((searchComprehensive [foodA] [foodB, foodC] [] [] none).map fdcKey).Nodup ∧
    firstProducingTier [foodA] [foodB, foodC] [] [] (fdcKey ⟨foodA, 1⟩) =
      some (⟨foodA, 1⟩ : TaggedFood).tier :=
  ⟨(searchComprehensive_dedup [foodA] [foodB, foodC] [] [] none).1,
   (searchComprehensive_dedup [foodA] [foodB, foodC] [] [] none).2.1,
   ((searchComprehensive_dedup [foodA] [foodB, foodC] [] [] none).2.2
      ⟨foodA, 1⟩ (by decide)).2⟩

/--
Claim C6 (counterexample).  The claim reads the lexical bonuses as one
mutually exclusive chain, so that an exact description match contributes
exactly 500.  In the code the +200 substring bonus (and the +250/+100 head
bonuses) live in a separate `if` chain from the +500/+300 one: for the
query "whole milk" and the description "Whole milk" at position 0 the
source scorer gives 1850 (500 exact + 200 substring + 150 word overlap on
base 1000), while the claim's exclusive reading gives 1650.
-/
theorem claimC6_counterexample :
    scoreRelevanceAdvanced foodWholeMilk (("whole milk").data) 0 = 1850 ∧
    scoreRelevanceClaimC6 foodWholeMilk (("whole milk").data) 0 = 1650 ∧
    scoreRelevanceAdvanced foodWholeMilk (("whole milk").data) 0 ≠
      scoreRelevanceClaimC6 foodWholeMilk (("whole milk").data) 0 :=
  ⟨by decide, by decide, by decide⟩

/--
Claim C6 (amended).  The lexical bonuses of `_score_relevance_advanced`
form two independent additive chains: the exact/starts-with chain
(+500 exact, else +300 starts-with) and the head/substring chain (+250 when
the description starts with the query's last word, plus +100 when the full
query also occurs, else +200 when the query occurs as a substring).  The
+200 substring bonus is mutually exclusive only with the +250 head bonus;
it stacks with the +500 and +300 bonuses.
-/
theorem lexicalBonus_decomposition (food : Food) (query : Str) (position : Nat) :
    scoreRelevanceAdvanced food query position = scoreRelevanceAmendedC6 food query position := by
  unfold scoreRelevanceAdvanced scoreRelevanceAmendedC6
  dsimp only
  refine congrArg (scoreWordAndPenalties food (pyLower query)) ?_
  split_ifs <;> ring

/--
Claim C7 (counterexample).  The claim says the pluralization adjustments
cover the `y → ies` form, so the ingredient "berry" is found under the
curated key "berries".  The code only strips one trailing `s` or appends
`s`/`es`; "berry" produces the probes "berrys" and "berryes", never
"berries", and the separator variations do not apply — the lookup misses.
-/
theorem claimC7_counterexample :
    fuzzyMatch (("berry").data) [("berries").data] = none ∧
    searchMappings (("berry").data) [((("berries").data), ⟨123⟩)] = none :=
  ⟨by decide, by decide⟩

/--
Claim C7 (amended).  The curated lookup matches in this order: exact
lowercased-stripped key; pluralization limited to stripping one trailing
`s` (when the ingredient ends in `s`) or appending `s` then `es` (when it
does not); then the space/underscore/hyphen variations.  There is no
`y ↔ ies` adjustment: "berry" is not found under the key "berries".
-/
theorem fuzzyMatch_policy :
    (∀ (ing : Str) (keys : List Str), pyStrip (pyLower ing) ∈ keys →
      fuzzyMatch ing keys = some (pyStrip (pyLower ing))) ∧
    (∀ (ing : Str) (keys : List Str), pyStrip (pyLower ing) ∉ keys →
      endsWithChar (pyStrip (pyLower ing)) 's' = true →
      (pyStrip (pyLower ing)).dropLast ∈ keys →
      fuzzyMatch ing keys = some (pyStrip (pyLower ing)).dropLast) ∧
    (∀ (ing : Str) (keys : List Str), pyStrip (pyLower ing) ∉ keys →
      endsWithChar (pyStrip (pyLower ing)) 's' = false →
      pyStrip (pyLower ing) ++ ['s'] ∈ keys →
      fuzzyMatch ing keys = some (pyStrip (pyLower ing) ++ ['s'])) ∧
    (∀ (ing : Str) (keys : List Str), pyStrip (pyLower ing) ∉ keys →
      endsWithChar (pyStrip (pyLower ing)) 's' = false →
      pyStrip (pyLower ing) ++ ['s'] ∉ keys →
      pyStrip (pyLower ing) ++ ("es").data ∈ keys →
      fuzzyMatch ing keys = some (pyStrip (pyLower ing) ++ ("es").data)) ∧
    (∀ (ing : Str) (keys : List Str), pyStrip (pyLower ing) ∉ keys →
      (endsWithChar (pyStrip (pyLower ing)) 's' = true →
        (pyStrip (pyLower ing)).dropLast ∉ keys) →
      (endsWithChar (pyStrip (pyLower ing)) 's' = false →
        pyStrip (pyLower ing) ++ ['s'] ∉ keys ∧ pyStrip (pyLower ing) ++ ("es").data ∉ keys) →
      fuzzyMatch ing keys =
        [charReplace ' ' '_' (pyStrip (pyLower ing)), charReplace '_' ' ' (pyStrip (pyLower ing)),
          charReplace '-' ' ' (pyStrip (pyLower ing)),
          charReplace ' ' '-' (pyStrip (pyLower ing))].find? (· ∈ keys)) ∧
    fuzzyMatch (("berry").data) [("berries").data] = none := by
  refine ⟨?_, ?_, ?_, ?_, ?_, by decide⟩
  · intro ing keys h
    unfold fuzzyMatch
    rw [if_pos h]
  · intro ing keys h1 h2 h3
    unfold fuzzyMatch
    rw [if_neg h1]
    dsimp only
    rw [if_pos h2, if_pos h3]
  · intro ing keys h1 h2 h3
    unfold fuzzyMatch
    rw [if_neg h1]
    dsimp only
    rw [if_neg (by simp [h2]), if_pos h3]
  · intro ing keys h1 h2 h3 h4
    unfold fuzzyMatch
    rw [if_neg h1]
    dsimp only
    rw [if_neg (by simp [h2]), if_neg h3, if_pos h4]
  · intro ing keys h1 h2 h3
    unfold fuzzyMatch
    rw [if_neg h1]
    dsimp only
    cases hend : endsWithChar (pyStrip (pyLower ing)) 's' with
    | true =>
      rw [if_pos rfl, if_neg (h2 hend)]
    | false =>
      rw [if_neg (by simp), if_neg (h3 hend).1, if_neg (h3 hend).2]

/-- Witness for the amended C7 theorem at concrete keys: an exact hit, an
appended-s hit, and the berry/berries miss. -/
theorem fuzzyMatch_policy_witness :
    fuzzyMatch (("Milk ").data) [("milk").data] = some (("milk").data) ∧
    fuzzyMatch (("carrot").data) [("carrots").data] = some (("carrots").data) ∧
    fuzzyMatch (("berry").data) [("berries").data] = none :=
  ⟨fuzzyMatch_policy.1 _ _ (by decide),
   fuzzyMatch_policy.2.2.1 _ _ (by decide) (by decide) (by decide),
   fuzzyMatch_policy.2.2.2.2.2⟩

/--
Claim C8 (counterexample).  The claim says the normalizer's canonical
output stores the energy slot converted to kilocalories by 1/4.184.  The
canonical row built by `extract_all_nutrients` stores the reported
`{amount, unit}` pair unchanged: a detail record reporting `Energy` as
419 kJ keeps amount 419 and unit "kJ" in the canonical energy slot, and
419 is not the converted value 419/4.184.
-/
theorem claimC8_counterexample :
    lookupKey (("nutrient-calories-energy").data)
      (extractAllNutrients [((("Energy").data), ⟨419, ("kJ").data⟩)]
        [("nutrient-calories-energy").data]) = some (some ⟨419, ("kJ").data⟩) ∧
    (419 : ℚ) ≠ 419 / (4.184 : ℚ) := by
  constructor
  · decide
  · norm_num

/--
Claim C8 (amended).  The canonical nutrient row stores the energy slot as
reported, amount and unit unchanged, even for kilojoules; the 1/4.184
kilojoule-to-kilocalorie conversion is applied only in the nutritional
similarity gate's basic-nutrient extraction, which derives `calories` as
`amount / 4.184` exactly when the stored unit contains "kj".
-/
theorem energyConversion_located :
    (∀ (ids : List Str) (nd : NutrientData), ("nutrient-calories-energy").data ∈ ids →
      lookupKey (("nutrient-calories-energy").data)
        (extractAllNutrients [((("Energy").data), nd)] ids) = some (some nd)) ∧
    (∀ (standardized : List (Str × Option NutrientData)) (nd : NutrientData),
      lookupKey (("nutrient-calories-energy").data) standardized = some (some nd) →
      nd.amount ≠ 0 →
      lookupQ (("calories").data) (extractBasicNutrients standardized) =
        some (if strContains (("kj").data) (pyLower nd.unit) = true
          then nd.amount / (4.184 : ℚ) else nd.amount)) := by
  constructor
  · intro ids nd hmem
    have hinit := lookupKey_initial ids (("nutrient-calories-energy").data) hmem
    have hsome : (lookupKey (("nutrient-calories-energy").data)
        (ids.map fun i => (i, none))).isSome = true := by
      rw [hinit]
      rfl
    unfold extractAllNutrients
    rw [List.foldl_cons, List.foldl_nil]
    have hmap : mapUsdaNutrientToStandard (("Energy").data) =
        some (("nutrient-calories-energy").data) := by decide
    unfold extractStep
    dsimp only
    rw [hmap]
    dsimp only
    rw [if_pos hsome]
    exact lookupKey_setKey_self _ _ _ hsome
  · intro st nd h hne
    have hcal : caloriesValue st =
        some (if strContains (("kj").data) (pyLower nd.unit) = true
          then nd.amount / (4.184 : ℚ) else nd.amount) := by
      unfold caloriesValue
      rw [h]
      show (if nd.amount ≠ 0 then _ else _) = _
      rw [if_pos hne]
      exact (apply_ite some _ _ _).symm
    exact extractBasicNutrients_calories st _ hcal

/-- Witness for the amended C8 theorem: a 419 kJ energy slot flows through
the canonical row unchanged and the gate derives `calories = 419 / 4.184`. -/
theorem energyConversion_located_witness :
    lookupQ (("calories").data)
      (extractBasicNutrients (extractAllNutrients [((("Energy").data), ⟨419, ("kJ").data⟩)]
        [("nutrient-calories-energy").data])) =
      some (if strContains (("kj").data) (pyLower (("kJ").data)) = true
        then (419 : ℚ) / (4.184 : ℚ) else 419) :=
  energyConversion_located.2 _ ⟨419, ("kJ").data⟩
    (energyConversion_located.1 [("nutrient-calories-energy").data] ⟨419, ("kJ").data⟩
      (by decide))
    (by decide)

/--
Claim C9.  Both catalog client operations are total over transport
failures: when all three attempts fail, `search_food` returns the empty
list and `get_food_details` returns null, after exponential backoff sleeps
of 2 s and 4 s (base 2 s) plus the final rate-limit delay; and the search
result depends only on the first three attempts.
-/
theorem clientRetry_contract (rs : Nat → Transport (List Food)) (rd : Nat → Transport FoodData)
    (hs : ∀ i, i < 3 → (rs i).isFail = true) (hd : ∀ i, i < 3 → (rd i).isFail = true) :
    searchFood rs = ([], [2, 4, rateLimitDelay]) ∧
    getFoodDetails rd = (none, [2, 4, rateLimitDelay]) ∧
    (∀ rs' : Nat → Transport (List Food), (∀ i, i < 3 → rs i = rs' i) →
      searchFood rs = searchFood rs') := by
  refine ⟨?_, ?_, ?_⟩
  · rcases fail_shape (rs 0) (hs 0 (by norm_num)) with c0 | c0 <;>
      rcases fail_shape (rs 1) (hs 1 (by norm_num)) with c1 | c1 <;>
      rcases fail_shape (rs 2) (hs 2 (by norm_num)) with c2 | c2 <;>
      · unfold searchFood
        simp only [clientLoop, c0, c1, c2]
        norm_num
  · rcases fail_shape (rd 0) (hd 0 (by norm_num)) with c0 | c0 <;>
      rcases fail_shape (rd 1) (hd 1 (by norm_num)) with c1 | c1 <;>
      rcases fail_shape (rd 2) (hd 2 (by norm_num)) with c2 | c2 <;>
      · unfold getFoodDetails
        simp only [clientLoop, c0, c1, c2]
        norm_num
  · intro rs' he
    unfold searchFood
    refine clientLoop_congr rs rs' [] id 0 3 ?_
    intro j hj
    simpa using he j hj

/-- Witness for C9: an always-timing-out search and an always-erroring
detail fetch return empty list and null with the backoff schedule. -/
theorem clientRetry_contract_witness :
    searchFood (fun _ => .timeout) = ([], [2, 4, rateLimitDelay]) ∧
    getFoodDetails (fun _ => .transportError) = (none, [2, 4, rateLimitDelay]) :=
  ⟨(clientRetry_contract (fun _ => .timeout) (fun _ => .transportError)
      (fun _ _ => rfl) (fun _ _ => rfl)).1,
   (clientRetry_contract (fun _ => .timeout) (fun _ => .transportError)
      (fun _ _ => rfl) (fun _ _ => rfl)).2.1⟩

end USDA
